import Mathlib

/-!
Verification of the AI vacation planner backend.

This file gives a shallow embedding, in Lean, of the deterministic core of the
repository (the Node/Express layers in `backend/server.js` and the two unnamed
server variants) together with a model, built from the specification, of the
Python orchestration engine that the repository ships outside of the embedded
sources.  JavaScript strings are modelled as Lean `String`s with ASCII case
mapping (every map key, airport code and literal in the sources is ASCII);
JavaScript object literals are modelled as finite maps or structures, numbers
as `Nat`/`Int`, and absent object fields as `Option`.  Code paths on which the
JavaScript runtime throws are modelled with `Option`.
-/

namespace VacationPlanner

/- ===== JavaScript string primitives (ASCII model) ===== -/

/-- Model of the case mapping done by `String.prototype.toLowerCase` on one
character, restricted to ASCII. -/
def jsLowerChar (c : Char) : Char :=
  if 65 ≤ c.toNat ∧ c.toNat ≤ 90 then Char.ofNat (c.toNat + 32) else c

/-- Model of `String.prototype.toUpperCase` on one character (ASCII). -/
def jsUpperChar (c : Char) : Char :=
  if 97 ≤ c.toNat ∧ c.toNat ≤ 122 then Char.ofNat (c.toNat - 32) else c

/-- Model of `city.toLowerCase()`. -/
def jsToLower (s : String) : String := String.mk (s.data.map jsLowerChar)

/-- Model of `city.toUpperCase()`. -/
def jsToUpper (s : String) : String := String.mk (s.data.map jsUpperChar)

/-- Does the list `hay` start with `needle`? -/
def listStarts : List Char → List Char → Bool
  | [], _ => true
  | _ :: _, [] => false
  | a :: as, b :: bs => a = b && listStarts as bs

/-- Does `hay` contain `needle` as a contiguous sublist?  First-position
scan, as in `String.prototype.includes`. -/
def jsIncludesL (needle : List Char) : List Char → Bool
  | [] => decide (needle = [])
  | c :: rest => listStarts needle (c :: rest) || jsIncludesL needle rest

/-- Model of `hay.includes(sub)`. -/
def jsIncludes (hay sub : String) : Bool := jsIncludesL sub.data hay.data

/-- Model of `s.startsWith(p)`. -/
def jsStartsWith (s p : String) : Bool := listStarts p.data s.data

/-- The characters treated as whitespace by `String.prototype.trim` and by the
regular-expression class `\s` (ASCII part). -/
def jsWhitespace (c : Char) : Bool :=
  c = ' ' || c = '\t' || c = '\n' || c = '\r' || c.toNat = 11 || c.toNat = 12

/-- Model of `s.trim()`. -/
def jsTrim (s : String) : String :=
  String.mk (((s.data.dropWhile jsWhitespace).reverse.dropWhile jsWhitespace).reverse)

/-- Split a character list on a separator character; every occurrence splits,
so consecutive separators produce empty pieces, as `split(sep)` does in
JavaScript. -/
def splitCharAux (sep : Char) : List Char → List Char → List (List Char)
  | acc, [] => [acc.reverse]
  | acc, c :: rest =>
    if c = sep then acc.reverse :: splitCharAux sep [] rest
    else splitCharAux sep (c :: acc) rest

/-- Model of `s.split(sep)` for a one-character separator. -/
def jsSplitOnChar (sep : Char) (s : String) : List String :=
  (splitCharAux sep [] s.data).map String.mk

/-- Model of `str.repeat(n)`. -/
def strRepeat (s : String) : Nat → String
  | 0 => ""
  | n + 1 => s ++ strRepeat s n

/-- Numeric value of a list of decimal digit characters (the capture of a
`\d+` group, as consumed by `parseInt`). -/
def digitsToNat (l : List Char) : Nat :=
  l.foldl (fun a c => a * 10 + (c.toNat - 48)) 0

/- ===== convertToAirportCode (src/unnamed/part_000, lines 121-152) ===== -/

/-- The `cityToCode` object literal of `convertToAirportCode`, modelled as a
finite association map (own properties only; the model does not include
prototype-chain properties). -/
def cityToCodeMap : List (String × String) :=
  [("new york", "JFK"), ("nyc", "JFK"), ("los angeles", "LAX"), ("la", "LAX"),
   ("chicago", "ORD"), ("san francisco", "SFO"), ("miami", "MIA"), ("boston", "BOS"),
   ("seattle", "SEA"), ("las vegas", "LAS"), ("london", "LHR"), ("paris", "CDG"),
   ("madrid", "MAD"), ("barcelona", "BCN"), ("rome", "FCO"), ("amsterdam", "AMS"),
   ("berlin", "BER"), ("tokyo", "NRT"), ("singapore", "SIN"), ("hong kong", "HKG"),
   ("dubai", "DXB"), ("bangkok", "BKK")]

/-- Property lookup `cityToCode[lower]`. -/
def cityToCode (lower : String) : Option String := cityToCodeMap.lookup lower

/-- Embedding of `convertToAirportCode`: look the lowercased city up in the
map and fall back to the uppercased input (`cityToCode[lower] ||
city.toUpperCase()`; every value of the map is a non-empty string, so the
JavaScript truthiness test coincides with presence). -/
def convertToAirportCode (city : String) : String :=
  match cityToCode (jsToLower city) with
  | some code => code
  | none => jsToUpper city

/- ===== Gregorian calendar (for the Date arithmetic in the parsers) ===== -/

def isLeapYear (y : Nat) : Bool := (y % 4 = 0 && y % 100 ≠ 0) || y % 400 = 0

def daysInMonth (y m : Nat) : Nat :=
  if m = 2 then (if isLeapYear y then 29 else 28)
  else if m = 4 ∨ m = 6 ∨ m = 9 ∨ m = 11 then 30
  else 31

def nextDay : Nat × Nat × Nat → Nat × Nat × Nat
  | (y, m, d) =>
    if d < daysInMonth y m then (y, m, d + 1)
    else if m < 12 then (y, m + 1, 1)
    else (y + 1, 1, 1)

/-- Adding days to a calendar date, as `setDate(getDate() + n)` does on a
valid UTC-midnight `Date`. -/
def addDays : Nat × Nat × Nat → Nat → Nat × Nat × Nat
  | t, 0 => t
  | t, n + 1 => addDays (nextDay t) n

/-- Leap years among `0, 1, ..., y - 1`. -/
def leapsBefore (y : Nat) : Nat := (y + 3) / 4 - (y + 99) / 100 + (y + 399) / 400

def daysBeforeMonth (y m : Nat) : Nat :=
  (List.range (m - 1)).foldl (fun a i => a + daysInMonth y (i + 1)) 0

/-- Day ordinal of a date (the difference of two ordinals is the number of
days between the dates, which is what `(dateB - dateA) / 86400000` computes
for two UTC-midnight dates). -/
def dayOrdinal : Nat × Nat × Nat → Nat
  | (y, m, d) => 365 * y + leapsBefore y + daysBeforeMonth y m + (d - 1)

def pad2 (n : Nat) : String := if n < 10 then "0" ++ Nat.repr n else Nat.repr n

def pad4 (n : Nat) : String :=
  if n < 10 then "000" ++ Nat.repr n
  else if n < 100 then "00" ++ Nat.repr n
  else if n < 1000 then "0" ++ Nat.repr n
  else Nat.repr n

def pad6 (n : Nat) : String :=
  if n < 10 then "00000" ++ Nat.repr n
  else if n < 100 then "0000" ++ Nat.repr n
  else if n < 1000 then "000" ++ Nat.repr n
  else if n < 10000 then "00" ++ Nat.repr n
  else if n < 100000 then "0" ++ Nat.repr n
  else Nat.repr n

/-- The year field of `toISOString`: four digits up to 9999, and the
expanded `+YYYYYY` form beyond (ECMA-262 Date Time String Format). -/
def formatYearISO (y : Nat) : String :=
  if y < 10000 then pad4 y else "+" ++ pad6 y

/-- Render a date the way `toISOString().split('T')[0]` does. -/
def formatYMD : Nat × Nat × Nat → String
  | (y, m, d) => formatYearISO y ++ "-" ++ pad2 m ++ "-" ++ pad2 d

/-- Parse a `YYYY-MM-DD` string the way `new Date(s)` validates an ISO date:
calendar-invalid strings give an Invalid Date, modelled as `none`. -/
def parseISODate (s : String) : Option (Nat × Nat × Nat) :=
  match jsSplitOnChar '-' s with
  | [ys, ms, ds] =>
    if ys.data.length = 4 ∧ ms.data.length = 2 ∧ ds.data.length = 2
        ∧ ys.data.all Char.isDigit ∧ ms.data.all Char.isDigit ∧ ds.data.all Char.isDigit then
      let y := digitsToNat ys.data
      let m := digitsToNat ms.data
      let d := digitsToNat ds.data
      if 1 ≤ m ∧ m ≤ 12 ∧ 1 ≤ d ∧ d ≤ daysInMonth y m then some (y, m, d) else none
    else none
  | _ => none

/-- Day ordinal of the Unix epoch `1970-01-01`. -/
def epochOrdinal : Nat := dayOrdinal (1970, 1, 1)

/-- Signed number of days between a date and the Unix epoch: the date's time
value divided by 86400000 ms. -/
def daysFromEpoch (t : Nat × Nat × Nat) : Int :=
  (dayOrdinal t : Int) - (epochOrdinal : Int)

/-- The `return_date` computation of `simpleFallbackParser`: `new
Date(departure_date)`, `setDate(getDate() + days)`,
`toISOString().split('T')[0]`.  `none` is the throwing path of the source: a
calendar-invalid departure string constructs an Invalid Date, and `setDate`
past the ECMA-262 range (a time value of at most 8.64e15 ms in magnitude,
that is 100,000,000 days from the epoch) also yields an Invalid Date; in
either case `toISOString` raises a RangeError. -/
def computeReturnDate (departure_date : String) (days : Nat) : Option String :=
  match parseISODate departure_date with
  | none => none
  | some ymd =>
    if -100000000 ≤ daysFromEpoch ymd + (days : Int)
        ∧ daysFromEpoch ymd + (days : Int) ≤ 100000000 then
      some (formatYMD (addDays ymd days))
    else none

/- ===== The two regular expressions of simpleFallbackParser ===== -/

/-- Exactly `n` digit characters (the year group of the date pattern). -/
def exactDigits : Nat → List Char → Option (List Char × List Char)
  | 0, l => some ([], l)
  | _ + 1, [] => none
  | n + 1, c :: r =>
    if c.isDigit then (exactDigits n r).map (fun p => (c :: p.1, p.2)) else none

/-- Match month-dot-year (one or two digits, a dot, four digits) at the start
of the list, with the backtracking a greedy two-digit group performs. -/
def matchMonthYear (rest : List Char) : Option (List Char × List Char) :=
  match rest with
  | a :: b :: r =>
    if a.isDigit then
      if b.isDigit then
        match r with
        | '.' :: r2 =>
          match exactDigits 4 r2 with
          | some (ys, _) => some ([a, b], ys)
          | none => none
        | _ => none
      else if b = '.' then
        match exactDigits 4 r with
        | some (ys, _) => some ([a], ys)
        | none => none
      else none
    else none
  | _ => none

/-- Match the whole day-dot-month-dot-year date pattern at the start of the
list, returning the day, month and year captures. -/
def matchDateAt (l : List Char) : Option (List Char × List Char × List Char) :=
  match l with
  | a :: b :: r =>
    if a.isDigit then
      if b.isDigit then
        match r with
        | '.' :: r2 => (matchMonthYear r2).map (fun p => ([a, b], p.1, p.2))
        | _ => none
      else if b = '.' then
        (matchMonthYear r).map (fun p => ([a], p.1, p.2))
      else none
    else none
  | _ => none

/-- First match of the date pattern, scanning left to right as the `match`
method of JavaScript strings does. -/
def findDate : List Char → Option (List Char × List Char × List Char)
  | [] => none
  | c :: rest =>
    match matchDateAt (c :: rest) with
    | some x => some x
    | none => findDate rest

/-- After the digits of the days pattern: optional whitespace then the word
`day` in either case (the optional trailing `s` does not affect whether the
pattern matches). -/
def matchDayWord (l : List Char) : Bool :=
  match l.dropWhile jsWhitespace with
  | c1 :: c2 :: c3 :: _ =>
    (c1 = 'd' || c1 = 'D') && (c2 = 'a' || c2 = 'A') && (c3 = 'y' || c3 = 'Y')
  | _ => false

/-- First match of the days pattern, returning the value of the digit
capture.  A greedy digit group always consumes a whole digit run (no digit
can begin the whitespace-day tail), and a match starting inside a digit run
succeeds exactly when the run start does, so the left-to-right scan below
reproduces first-match semantics. -/
def findDaysCapture : List Char → Option Nat
  | [] => none
  | c :: rest =>
    if c.isDigit then
      let run := (c :: rest).takeWhile Char.isDigit
      let tail := (c :: rest).dropWhile Char.isDigit
      if matchDayWord tail then some (digitsToNat run) else findDaysCapture rest
    else findDaysCapture rest

/- ===== simpleFallbackParser (src/backend/server.js, lines 70-124) ===== -/

structure TravelDetails where
  origin : String
  destination : String
  departure_date : String
  return_date : String
  passengers : Nat
  budget : Option Nat
deriving DecidableEq, Repr

inductive ParseOutcome
  | needsClarification (missing_fields : List String)
  | ok (td : TravelDetails)
deriving DecidableEq, Repr

/-- The origin extraction of `simpleFallbackParser`: a chain of
`includes` tests on the lowercased prompt with the default `JFK`. -/
def extractOrigin (lower : String) : String :=
  if jsIncludes lower "from santander" then "SDR"
  else if jsIncludes lower "from madrid" then "MAD"
  else if jsIncludes lower "from barcelona" then "BCN"
  else if jsIncludes lower "from new york" || jsIncludes lower "from nyc" then "JFK"
  else if jsIncludes lower "from la" || jsIncludes lower "from los angeles" then "LAX"
  else "JFK"

/-- The destination extraction of `simpleFallbackParser`; `none` models the
`null` that triggers the clarification return. -/
def extractDestination (lower : String) : Option String :=
  if jsIncludes lower "to madrid" || (jsIncludes lower "madrid" && !jsIncludes lower "from madrid") then some "MAD"
  else if jsIncludes lower "to barcelona" || (jsIncludes lower "barcelona" && !jsIncludes lower "from barcelona") then some "BCN"
  else if jsIncludes lower "to paris" then some "CDG"
  else if jsIncludes lower "to london" then some "LHR"
  else none

/-- `padStart` to width two with a zero, on a 1-or-2-digit capture. -/
def padStart2 (l : List Char) : String :=
  if l.length = 1 then "0" ++ String.mk l else String.mk l

/-- The departure date of `simpleFallbackParser`: the first day-month-year
match rearranged to `YYYY-MM-DD`, defaulting to `2025-12-10`. -/
def extractDepartureDate (prompt : String) : String :=
  match findDate prompt.data with
  | some (ds, ms, ys) => String.mk ys ++ "-" ++ padStart2 ms ++ "-" ++ padStart2 ds
  | none => "2025-12-10"

/-- Embedding of `simpleFallbackParser`.  The `return_date` is computed
before the destination check, as in the source; the result is `none` exactly
where the JavaScript throws, namely where `computeReturnDate` hits the
`toISOString` RangeError (calendar-invalid constructed date, or `setDate`
overflowing the Date range on a huge day capture) before any return
statement. -/
def simpleFallbackParser (prompt : String) : Option ParseOutcome :=
  let lower := jsToLower prompt
  let origin := extractOrigin lower
  let destination := extractDestination lower
  let departure_date := extractDepartureDate prompt
  let days := (findDaysCapture prompt.data).getD 5
  match computeReturnDate departure_date days with
  | none => none
  | some return_date =>
    match destination with
    | none => some (ParseOutcome.needsClarification ["destination"])
    | some dest =>
      some (ParseOutcome.ok
        { origin := origin, destination := dest, departure_date := departure_date,
          return_date := return_date, passengers := 2, budget := none })

/-- A request whose day capture (999,999,999 days) pushes `setDate` past the
Date range, so the source throws and the endpoint answers 500. -/
def promptOverflowDays : String := "Trip to Madrid, 999999999 days"

/-- Concrete input for the parser theorems: the origin-absent request of the
specification example. -/
def promptNoOrigin : String := "Trip to Madrid, 5 days, Dec 10"

/-- Concrete input for the parser theorems: a request with every field. -/
def promptParisFromLA : String := "fly to paris from la 12.3.2026 4 days"

/-- What the parser produces on `promptParisFromLA`. -/
def tdParisFromLA : TravelDetails :=
  { origin := "LAX", destination := "CDG", departure_date := "2026-03-12",
    return_date := "2026-03-16", passengers := 2, budget := none }

/- ===== formatCompleteVacationPlan (src/backend/server.js, lines 140-235) ===== -/

/-- The fields of a flight option read by the formatter (`flight.outbound`). -/
structure OutboundJS where
  airline : String
  fromAp : String
  toAp : String
  departure : String
  stops : Nat
deriving DecidableEq, Repr

structure FlightJS where
  price : Nat
  currency : String
  outbound : OutboundJS
deriving DecidableEq, Repr

structure FlightsData where
  success : Bool
  flights : List FlightJS
  summary : String
deriving DecidableEq, Repr

structure HotelJS where
  name : String
  rating : Nat
  price : Nat
  room_type : String
deriving DecidableEq, Repr

structure HotelsData where
  success : Bool
  hotels : List HotelJS
deriving DecidableEq, Repr

structure RestaurantJS where
  name : String
  rating : Nat
  cuisine : String
deriving DecidableEq, Repr

structure RestaurantsData where
  success : Bool
  restaurants : List RestaurantJS
deriving DecidableEq, Repr

structure AttractionJS where
  name : String
  rating : Nat
  type : String
  price : String
deriving DecidableEq, Repr

structure AttractionsData where
  success : Bool
  attractions : List AttractionJS
deriving DecidableEq, Repr

/-- A morning or afternoon slot of an itinerary day; the empty string models
an absent or falsy field. -/
structure ActivitySlot where
  activity : String
  location : String
deriving DecidableEq, Repr

/-- A lunch or dinner slot of an itinerary day. -/
structure MealSlot where
  restaurant : String
  cuisine : String
deriving DecidableEq, Repr

structure ItinDayJS where
  day : Nat
  date : String
  morning : Option ActivitySlot
  lunch : Option MealSlot
  afternoon : Option ActivitySlot
  dinner : Option MealSlot
deriving DecidableEq, Repr

structure ItineraryData where
  success : Bool
  itinerary : List ItinDayJS
deriving DecidableEq, Repr

/-- The `results` object handed to `formatCompleteVacationPlan`; `none`
models an absent member (the optional-chaining reads). -/
structure OrchResultsJS where
  flights : Option FlightsData
  hotels : Option HotelsData
  restaurants : Option RestaurantsData
  attractions : Option AttractionsData
  itinerary : Option ItineraryData
deriving DecidableEq, Repr

structure TripDetailsJS where
  origin : String
  destination : String
  departure_date : String
  return_date : String
  passengers : Nat
deriving DecidableEq, Repr

/-- The guard `flightData?.success && flightData.flights?.length > 0`. -/
def flightsOk (r : OrchResultsJS) : Bool :=
  match r.flights with
  | some fd => fd.success && decide (0 < fd.flights.length)
  | none => false

/-- The guard `hotelData?.success && hotelData.hotels?.length > 0`. -/
def hotelsOk (r : OrchResultsJS) : Bool :=
  match r.hotels with
  | some hd => hd.success && decide (0 < hd.hotels.length)
  | none => false

def restaurantsOk (r : OrchResultsJS) : Bool :=
  match r.restaurants with
  | some rd => rd.success && decide (0 < rd.restaurants.length)
  | none => false

def attractionsOk (r : OrchResultsJS) : Bool :=
  match r.attractions with
  | some ad => ad.success && decide (0 < ad.attractions.length)
  | none => false

def itineraryOk (r : OrchResultsJS) : Bool :=
  match r.itinerary with
  | some it => it.success && decide (0 < it.itinerary.length)
  | none => false

/-- Body of the flights section. -/
def flightsBody (r : OrchResultsJS) : String :=
  match r.flights with
  | some fd =>
    if fd.success && decide (0 < fd.flights.length) then
      fd.summary ++ "\n\n"
      ++ String.join ((fd.flights.take 3).enum.map (fun p =>
           "**Option " ++ Nat.repr (p.1 + 1) ++ "** - $" ++ Nat.repr p.2.price ++ " " ++ p.2.currency ++ "\n"
           ++ "- " ++ p.2.outbound.airline ++ ": " ++ p.2.outbound.fromAp ++ " → " ++ p.2.outbound.toAp ++ "\n"
           ++ "  Departs: " ++ p.2.outbound.departure ++ " | Stops: " ++ Nat.repr p.2.outbound.stops ++ "\n\n"))
    else "Flight information unavailable.\n\n"
  | none => "Flight information unavailable.\n\n"

/-- Body of the hotels section. -/
def hotelsBody (r : OrchResultsJS) : String :=
  match r.hotels with
  | some hd =>
    if hd.success && decide (0 < hd.hotels.length) then
      String.join ((hd.hotels.take 3).enum.map (fun p =>
        "**" ++ Nat.repr (p.1 + 1) ++ ". " ++ p.2.name ++ "** " ++ strRepeat "⭐" (min p.2.rating 5) ++ "\n"
        ++ "- $" ++ Nat.repr p.2.price ++ "/night | " ++ p.2.room_type ++ "\n\n"))
    else "Hotel recommendations unavailable.\n\n"
  | none => "Hotel recommendations unavailable.\n\n"

/-- Body of the restaurants section. -/
def restaurantsBody (r : OrchResultsJS) : String :=
  match r.restaurants with
  | some rd =>
    if rd.success && decide (0 < rd.restaurants.length) then
      String.join ((rd.restaurants.take 5).enum.map (fun p =>
        "**" ++ Nat.repr (p.1 + 1) ++ ". " ++ p.2.name ++ "** ⭐ " ++ Nat.repr p.2.rating ++ "\n"
        ++ "- " ++ p.2.cuisine ++ "\n\n"))
    else "Restaurant recommendations unavailable.\n\n"
  | none => "Restaurant recommendations unavailable.\n\n"

/-- Body of the attractions section. -/
def attractionsBody (r : OrchResultsJS) : String :=
  match r.attractions with
  | some ad =>
    if ad.success && decide (0 < ad.attractions.length) then
      String.join ((ad.attractions.take 5).enum.map (fun p =>
        "**" ++ Nat.repr (p.1 + 1) ++ ". " ++ p.2.name ++ "** ⭐ " ++ Nat.repr p.2.rating ++ "\n"
        ++ "- " ++ p.2.type ++ " | " ++ p.2.price ++ "\n\n"))
    else "Attraction recommendations unavailable.\n\n"
  | none => "Attraction recommendations unavailable.\n\n"

/-- One itinerary day, with the truthiness guards of the source. -/
def itineraryDayText (day : ItinDayJS) : String :=
  "### Day " ++ Nat.repr day.day ++ " - " ++ day.date ++ "\n\n"
  ++ (match day.morning with
      | some m =>
        if m.activity = "" then ""
        else "**Morning:** " ++ m.activity ++ "\n"
             ++ (if m.location = "" then "" else "📍 " ++ m.location ++ "\n\n")
      | none => "")
  ++ (match day.lunch with
      | some l =>
        if l.restaurant = "" then ""
        else "**Lunch:** " ++ l.restaurant ++ "\n"
             ++ (if l.cuisine = "" then "" else "🍽️ " ++ l.cuisine ++ "\n\n")
      | none => "")
  ++ (match day.afternoon with
      | some a =>
        if a.activity = "" then ""
        else "**Afternoon:** " ++ a.activity ++ "\n"
             ++ (if a.location = "" then "" else "📍 " ++ a.location ++ "\n\n")
      | none => "")
  ++ (match day.dinner with
      | some d =>
        if d.restaurant = "" then ""
        else "**Dinner:** " ++ d.restaurant ++ "\n"
             ++ (if d.cuisine = "" then "" else "🍽️ " ++ d.cuisine ++ "\n\n")
      | none => "")

/-- Body of the itinerary section. -/
def itineraryBody (r : OrchResultsJS) : String :=
  match r.itinerary with
  | some it =>
    if it.success && decide (0 < it.itinerary.length) then
      String.join (it.itinerary.map itineraryDayText)
    else "Itinerary will be generated based on preferences.\n\n"
  | none => "Itinerary will be generated based on preferences.\n\n"

def flightsSection (r : OrchResultsJS) : String := "## ✈️ Flights\n\n" ++ flightsBody r

def hotelsSection (r : OrchResultsJS) : String := "## 🏨 Hotels\n\n" ++ hotelsBody r

def restaurantsSection (r : OrchResultsJS) : String := "## 🍽️ Restaurants\n\n" ++ restaurantsBody r

def attractionsSection (r : OrchResultsJS) : String := "## 🎭 Things to Do\n\n" ++ attractionsBody r

def itinerarySection (r : OrchResultsJS) : String := "## 📅 Day-by-Day Itinerary\n\n" ++ itineraryBody r

/-- The section separator the formatter emits between blocks. -/
def sectionSep : String := "---\n\n"

/-- The header block of the plan. -/
def planHeaderJS (td : TripDetailsJS) : String :=
  "# 🌍 Your Complete Vacation Plan\n\n"
  ++ "**Trip:** " ++ td.origin ++ " → " ++ td.destination ++ "\n"
  ++ "**Dates:** " ++ td.departure_date ++ " to " ++ td.return_date ++ "\n"
  ++ "**Travelers:** " ++ Nat.repr td.passengers ++ " people\n\n"

def planFooterJS : String := "*Powered by AI Multi-Agent System*"

/-- Embedding of `formatCompleteVacationPlan` of `src/backend/server.js`: the
header, then the five stage sections in source order, each followed by the
separator, then the footer. -/
def formatCompleteVacationPlan (results : OrchResultsJS) (travelDetails : TripDetailsJS) : String :=
  planHeaderJS travelDetails ++ sectionSep
  ++ flightsSection results ++ sectionSep
  ++ hotelsSection results ++ sectionSep
  ++ restaurantsSection results ++ sectionSep
  ++ attractionsSection results ++ sectionSep
  ++ itinerarySection results ++ sectionSep
  ++ planFooterJS

/-- A results object with every stage missing, used to instantiate the
placeholder statements. -/
def resultsAllMissing : OrchResultsJS :=
  { flights := none, hotels := none, restaurants := none,
    attractions := none, itinerary := none }

/-- A sample trip for the formatter witnesses. -/
def tdSample : TripDetailsJS :=
  { origin := "SDR", destination := "MAD", departure_date := "2025-12-10",
    return_date := "2025-12-15", passengers := 2 }

/- ===== authentication middleware (src/unnamed/part_002, lines 22-55;
       identical in src/backend/server.js, lines 21-54) ===== -/

/-- Outcome of the middleware: `next u` proceeds to the endpoint handlers
(with `req.user.email = u` when a token was accepted), `unauthorized e`
models `res.status(401).json({success: false, error: e})`, which ends the
request before any endpoint handler or outbound call. -/
inductive AuthOutcome
  | next (user : Option String)
  | unauthorized (error : String)
deriving DecidableEq, Repr

def publicPaths : List String := ["/health"]

/-- The token the middleware extracts: `authHeader.split(' ')[1]` (the access
is only reached when the header starts with the Bearer prefix, so index 1
exists; the default covers the unreachable case). -/
def bearerTokenOf (hdr : String) : String := (jsSplitOnChar ' ' hdr).getD 1 ""

/-- Embedding of the authentication middleware. -/
def authMiddleware (path : String) (authHeader : Option String) : AuthOutcome :=
  if publicPaths.contains path then AuthOutcome.next none
  else
    match authHeader with
    | none => AuthOutcome.unauthorized "Authentication required"
    | some hdr =>
      if jsStartsWith hdr "Bearer " then
        let token := bearerTokenOf hdr
        if token ≠ "" ∧ jsIncludes token "@" = true ∧ jsIncludes token "." = true then
          AuthOutcome.next (some token)
        else AuthOutcome.unauthorized "Invalid authentication"
      else AuthOutcome.unauthorized "Authentication required"

/-- The acceptance condition of the middleware, factored out: the header is
`Bearer <token>` whose first space-separated chunk after `Bearer` contains
both an at sign and a dot. -/
def authAccepts (authHeader : Option String) : Prop :=
  match authHeader with
  | none => False
  | some hdr =>
    jsStartsWith hdr "Bearer " = true ∧ bearerTokenOf hdr ≠ ""
      ∧ jsIncludes (bearerTokenOf hdr) "@" = true ∧ jsIncludes (bearerTokenOf hdr) "." = true

instance (h : Option String) : Decidable (authAccepts h) := by
  unfold authAccepts
  cases h with
  | none => exact inferInstanceAs (Decidable False)
  | some hdr => exact inferInstanceAs (Decidable (_ ∧ _ ∧ _ ∧ _))

/- ===== JSON values and truthiness (request bodies) ===== -/

/-- A JSON-ish value as the handlers see request-body fields; `undef` models
an absent field, `objv` an arbitrary (truthy) object. -/
inductive JsVal
  | undef
  | nullv
  | boolv (b : Bool)
  | numv (n : Int)
  | strv (s : String)
  | objv
deriving DecidableEq, Repr

/-- JavaScript truthiness of a value. -/
def jsTruthy : JsVal → Bool
  | JsVal.undef => false
  | JsVal.nullv => false
  | JsVal.boolv b => b
  | JsVal.numv n => n != 0
  | JsVal.strv s => s ≠ ""
  | JsVal.objv => true

/-- The `typeof v === 'string'` test. -/
def jsIsString : JsVal → Bool
  | JsVal.strv _ => true
  | _ => false

/-- The string payload of a value (only read behind a string test). -/
def jsStrOf : JsVal → String
  | JsVal.strv s => s
  | _ => ""

/-- Truthiness of an optional string field (absent and empty are falsy). -/
def optStrTruthy (o : Option String) : Bool :=
  match o with
  | some s => s ≠ ""
  | none => false

/-- Truthiness of an optional number field (absent and zero are falsy). -/
def optNatTruthy (o : Option Nat) : Bool :=
  match o with
  | some n => n ≠ 0
  | none => false

/- ===== formatCompleteVacationPlan (src/unnamed/part_002, lines 88-259) ===== -/

/-- The travel-details object of the production formatter; every field may be
absent. -/
structure TdP2 where
  origin : Option String
  destination : Option String
  departure_date : Option String
  return_date : Option String
  passengers : Option Nat
  budget : Option Nat
deriving DecidableEq, Repr

def emptyTdP2 : TdP2 :=
  { origin := none, destination := none, departure_date := none,
    return_date := none, passengers := none, budget := none }

/-- One leg of the finally selected flight. -/
structure OutboundP2 where
  airline : String
  flight : String
  fromAp : String
  toAp : String
  departure : String
  arrival : String
  duration : String
  stops : Nat
deriving DecidableEq, Repr

structure FlightP2 where
  price : Nat
  currency : String
  outbound : OutboundP2
  ret : Option OutboundP2
deriving DecidableEq, Repr

structure HotelP2 where
  name : String
  rating : Option Nat
  price : Nat
  room_type : String
deriving DecidableEq, Repr

structure RestP2 where
  name : String
  rating : Option Nat
  cuisine : Option String
  price_level : Option Nat
  address : Option String
deriving DecidableEq, Repr

structure RestWrapP2 where
  recommended_restaurants : Option (List RestP2)
deriving DecidableEq, Repr

structure AttrP2 where
  name : String
  rating : Option Nat
  type : Option String
  address : Option String
deriving DecidableEq, Repr

structure AttrWrapP2 where
  recommended_attractions : Option (List AttrP2)
deriving DecidableEq, Repr

/-- The `all_results` object of the orchestrator. -/
structure ResultsP2 where
  final_flight : Option FlightP2
  final_hotel : Option HotelP2
  final_restaurant : Option RestWrapP2
  final_attraction : Option AttrWrapP2
  itinerary : Option ItineraryData
deriving DecidableEq, Repr

def emptyResultsP2 : ResultsP2 :=
  { final_flight := none, final_hotel := none, final_restaurant := none,
    final_attraction := none, itinerary := none }

/-- The locale-dependent date renderings the production formatter obtains
from the JavaScript runtime.  The Unicode locale tables are environment data,
so these three `Date` formatting calls are modelled as an explicit parameter;
everything else in the formatter is embedded from the source. -/
structure JsDateEnv where
  localeDateLong : String → String
  localeDateTimeShort : String → String
  localeWeekdayMonthDay : String → String

/-- The trip duration string: the day difference of the two parsed dates, or
`NaN` when either date is invalid (arithmetic on an Invalid Date). -/
def tripDaysStr (dep ret : String) : String :=
  match parseISODate dep, parseISODate ret with
  | some a, some b => Int.repr ((dayOrdinal b : Int) - (dayOrdinal a : Int))
  | _, _ => "NaN"

/-- The trip header block of the production formatter. -/
def tripHeaderP2 (env : JsDateEnv) (travelDetails : Option TdP2) : String :=
  match travelDetails with
  | none => ""
  | some td =>
    "## 🌍 Your Adventure\n\n"
    ++ (if optStrTruthy td.origin && optStrTruthy td.destination then
          "**Destination:** " ++ td.destination.getD "" ++ " 🎯\n"
          ++ "**Departing from:** " ++ td.origin.getD "" ++ "\n"
        else "")
    ++ (if optStrTruthy td.departure_date && optStrTruthy td.return_date then
          "**When:** " ++ env.localeDateLong (td.departure_date.getD "") ++ "\n"
          ++ "**Duration:** " ++ tripDaysStr (td.departure_date.getD "") (td.return_date.getD "")
          ++ " unforgettable days\n"
        else "")
    ++ (if optNatTruthy td.passengers then
          "**Travelers:** " ++ Nat.repr (td.passengers.getD 0) ++ " "
          ++ (if td.passengers.getD 0 = 1 then "adventurer" else "adventurers") ++ "\n"
        else "")
    ++ (if optNatTruthy td.budget then
          "**Budget:** €" ++ Nat.repr (td.budget.getD 0) ++ "\n"
        else "")
    ++ "\n---\n\n"

/-- One leg rendering of the final flight (outbound and return differ only in
their leading line). -/
def legTextP2 (env : JsDateEnv) (header : String) (leg : OutboundP2) : String :=
  header
  ++ "• Departs " ++ leg.fromAp ++ " → " ++ leg.toAp ++ "\n"
  ++ "• " ++ env.localeDateTimeShort leg.departure ++ "\n"
  ++ "• Arrives: " ++ env.localeDateTimeShort leg.arrival ++ "\n"
  ++ "• Flight time: " ++ leg.duration ++ " • "
  ++ (if leg.stops = 0 then "Direct flight!" else Nat.repr leg.stops ++ " stop(s)") ++ "\n\n"

/-- The flights section of the production formatter. -/
def flightSectionP2 (env : JsDateEnv) (results : ResultsP2) : String :=
  "## ✈️ Your Journey Begins\n\n"
  ++ (match results.final_flight with
      | some f =>
        "Get ready to soar! Your flight is all set:\n\n"
        ++ "**" ++ f.outbound.airline ++ " " ++ f.outbound.flight ++ "** • $"
        ++ Nat.repr f.price ++ " " ++ f.currency ++ "\n\n"
        ++ legTextP2 env "**🛫 Outbound Flight:**\n" f.outbound
        ++ (match f.ret with
            | some rt => legTextP2 env "**🛬 Return Flight:**\n" rt
            | none => "")
      | none => "Your flight details will be confirmed shortly.\n\n")

/-- The hotel section of the production formatter. -/
def hotelSectionP2 (results : ResultsP2) : String :=
  "## 🏨 Your Home Away From Home\n\n"
  ++ (match results.final_hotel with
      | some h =>
        "Welcome to your perfect retreat:\n\n"
        ++ "### " ++ h.name ++ " "
        ++ strRepeat "⭐" (if optNatTruthy h.rating then h.rating.getD 0 else 3) ++ "\n\n"
        ++ "**Rate:** $" ++ Nat.repr h.price ++ "/night\n\n"
        ++ "**Your Room:**\n" ++ h.room_type ++ "\n\n"
      | none => "Your accommodation will be confirmed shortly.\n\n")

/-- The restaurants section of the production formatter. -/
def restaurantSectionP2 (results : ResultsP2) : String :=
  "## 🍽️ Culinary Adventures Await\n\n"
  ++ "We\x27ve handpicked these exceptional dining spots for you:\n\n"
  ++ (match results.final_restaurant with
      | some fr =>
        match fr.recommended_restaurants with
        | some list =>
          String.join (list.enum.map (fun p =>
            "**" ++ Nat.repr (p.1 + 1) ++ ". " ++ p.2.name ++ "** "
            ++ strRepeat "⭐" (if optNatTruthy p.2.rating then p.2.rating.getD 0 else 4) ++ "\n"
            ++ (if optStrTruthy p.2.cuisine then "   *" ++ p.2.cuisine.getD "" ++ "*\n" else "")
            ++ (if optNatTruthy p.2.price_level then
                  "   " ++ strRepeat "€" (p.2.price_level.getD 0) ++ " • "
                else "")
            ++ (if optStrTruthy p.2.address then p.2.address.getD "" else "")
            ++ "\n\n"))
        | none => "Restaurant recommendations will be added to your plan.\n\n"
      | none => "Restaurant recommendations will be added to your plan.\n\n")

/-- The attractions section of the production formatter. -/
def attractionSectionP2 (results : ResultsP2) : String :=
  "## 🎭 Discover & Explore\n\n"
  ++ "These amazing experiences are waiting for you:\n\n"
  ++ (match results.final_attraction with
      | some fa =>
        match fa.recommended_attractions with
        | some list =>
          String.join (list.enum.map (fun p =>
            "**" ++ Nat.repr (p.1 + 1) ++ ". " ++ p.2.name ++ "** "
            ++ strRepeat "⭐" (if optNatTruthy p.2.rating then p.2.rating.getD 0 else 4) ++ "\n"
            ++ (if optStrTruthy p.2.type then "   🏷️ " ++ p.2.type.getD "" ++ "\n" else "")
            ++ (if optStrTruthy p.2.address then "   📍 " ++ p.2.address.getD "" ++ "\n" else "")
            ++ "\n"))
        | none => "Your personalized attraction list is being prepared.\n\n"
      | none => "Your personalized attraction list is being prepared.\n\n")

def dayNamesP2 : List String :=
  ["First", "Second", "Third", "Fourth", "Fifth", "Sixth", "Seventh"]

/-- `dayNames[idx] || 'Day ' + day.day`. -/
def dayNameFor (idx dayNum : Nat) : String :=
  (dayNamesP2.get? idx).getD ("Day " ++ Nat.repr dayNum)

/-- One itinerary day of the production formatter. -/
def itinDayTextP2 (env : JsDateEnv) (idx : Nat) (day : ItinDayJS) : String :=
  "### " ++ dayNameFor idx day.day ++ " Day • " ++ env.localeWeekdayMonthDay day.date ++ "\n\n"
  ++ (match day.morning with
      | some m =>
        if m.activity = "" then ""
        else "🌅 **Morning:** Start your day at " ++ m.activity ++ "\n"
             ++ (if m.location = "" then "" else "   📍 *" ++ m.location ++ "*\n")
             ++ "\n"
      | none => "")
  ++ (match day.lunch with
      | some l =>
        if l.restaurant = "" then ""
        else "🍴 **Lunch:** Savor the flavors at " ++ l.restaurant ++ "\n"
             ++ (if l.cuisine = "" then "" else "   *Enjoy authentic " ++ l.cuisine ++ "*\n")
             ++ "\n"
      | none => "")
  ++ (match day.afternoon with
      | some a =>
        if a.activity = "" then ""
        else "☀️ **Afternoon:** Continue your adventure at " ++ a.activity ++ "\n"
             ++ (if a.location = "" then "" else "   📍 *" ++ a.location ++ "*\n")
             ++ "\n"
      | none => "")
  ++ (match day.dinner with
      | some d =>
        if d.restaurant = "" then ""
        else "🌙 **Dinner:** End your day with a delightful meal at " ++ d.restaurant ++ "\n"
             ++ (if d.cuisine = "" then "" else "   *Experience exquisite " ++ d.cuisine ++ "*\n")
             ++ "\n"
      | none => "")
  ++ "\n"

/-- The itinerary section of the production formatter. -/
def itinerarySectionP2 (env : JsDateEnv) (results : ResultsP2) : String :=
  "## 📅 Your Day-by-Day Adventure\n\n"
  ++ "*Here\x27s your personalized itinerary - each day crafted for maximum enjoyment!*\n\n"
  ++ (match results.itinerary with
      | some it =>
        if it.success && decide (0 < it.itinerary.length) then
          String.join (it.itinerary.enum.map (fun p => itinDayTextP2 env p.1 p.2))
        else "Your customized daily itinerary will be ready soon!\n\n"
      | none => "Your customized daily itinerary will be ready soon!\n\n")

/-- Embedding of the `formatCompleteVacationPlan` fallback formatter of the
production server (src/unnamed/part_002). -/
def formatCompleteVacationPlanP2 (env : JsDateEnv) (results : ResultsP2)
    (travelDetails : Option TdP2) : String :=
  "# ✨ Your Dream Vacation Awaits!\n\n"
  ++ tripHeaderP2 env travelDetails
  ++ flightSectionP2 env results
  ++ "---\n\n"
  ++ hotelSectionP2 results
  ++ "---\n\n"
  ++ restaurantSectionP2 results
  ++ "---\n\n"
  ++ attractionSectionP2 results
  ++ "---\n\n"
  ++ itinerarySectionP2 env results
  ++ "---\n\n"
  ++ "### 🎉 Ready for Adventure?\n\n"
  ++ "Your vacation plan is all set! Get ready to create unforgettable memories.\n\n"
  ++ "*Bon voyage! Safe travels and enjoy every moment!* ✈️🌍✨\n"

/- ===== the two production endpoints (src/unnamed/part_002) ===== -/

/-- The JSON reply of the Python orchestrator, by its `status` field. -/
inductive OrchReply
  | clarificationNeeded (questions : Option (List String)) (reasoning : Option String)
      (missing_required : Option (List String)) (missing_optional : Option (List String))
  | awaitingUserInput (session_id : Option String) (agent : String) (item_type : String)
      (recommendations : JsVal) (summary : String) (turn : Option Nat)
  | completeReply (success : Bool) (data : Option String) (error : Option String)
      (all_results : Option ResultsP2) (travel_details : Option TdP2)
  | errorReply (error : Option String)
  | unexpected (success : Bool) (error : Option String)
deriving DecidableEq, Repr

/-- The JSON responses the two endpoints produce. -/
inductive ApiResponse
  | badRequest (error : String) (message : String)
  | clarification (questions : List String) (reasoning : String)
      (missing_required : List String) (missing_optional : List String)
  | awaiting (session_id : Option String) (agent : String) (item_type : String)
      (recommendations : JsVal) (summary : String) (turn : Option Nat)
  | completeOk (data : String) (message : String) (raw_results : Option ResultsP2)
      (travel_details : TdP2)
  | serviceUnavailable (error : String) (message : Option String)
  | serverError (error : String) (message : String)
deriving DecidableEq, Repr

/-- The HTTP status code each response is sent with. -/
def httpStatusOf : ApiResponse → Nat
  | ApiResponse.badRequest .. => 400
  | ApiResponse.clarification .. => 200
  | ApiResponse.awaiting .. => 200
  | ApiResponse.completeOk .. => 200
  | ApiResponse.serviceUnavailable .. => 503
  | ApiResponse.serverError .. => 500

/-- The `success` field of each response body (absent on the clarification
and awaiting shapes, which carry no such field). -/
def successFieldOf : ApiResponse → Option Bool
  | ApiResponse.badRequest .. => some false
  | ApiResponse.clarification .. => none
  | ApiResponse.awaiting .. => none
  | ApiResponse.completeOk .. => some true
  | ApiResponse.serviceUnavailable .. => some false
  | ApiResponse.serverError .. => some false

/-- The request body of the planning endpoint. -/
structure PlanBody where
  prompt : JsVal
  clarification_response : JsVal
deriving DecidableEq, Repr

/-- What the planning endpoint forwards to the orchestrator. -/
structure PlanForward where
  user_prompt : String
  clarification_response : Option JsVal
deriving DecidableEq, Repr

/-- The request body of the resume endpoint.  The handler destructures only
`session_id` and `user_decision`; the `turn` member stands for any extra
field a caller might send (such as an expected turn), which the handler
never reads. -/
structure ResumeBody where
  session_id : JsVal
  user_decision : JsVal
  turn : JsVal
deriving DecidableEq, Repr

/-- What the resume endpoint forwards to the orchestrator: exactly the
session id and the decision. -/
structure ResumeForward where
  session_id : JsVal
  user_decision : JsVal
deriving DecidableEq, Repr

/-- The catch block of the planning endpoint. -/
def planCatch (msg : String) : ApiResponse :=
  if jsIncludes msg "fetch" then
    ApiResponse.serviceUnavailable "Unable to connect to AI agents service"
      (some "Please ensure the Python agents service is running on port 8081")
  else ApiResponse.serverError msg "Failed to generate vacation plan"

/-- The catch block of the resume endpoint. -/
def resumeCatch (msg : String) : ApiResponse :=
  if jsIncludes msg "fetch" then
    ApiResponse.serviceUnavailable "Unable to connect to AI agents service" none
  else ApiResponse.serverError msg "Failed to resume vacation planning"

/-- `a || b` on an optional string against a fallback (empty is falsy). -/
def jsOrStr (a : Option String) (b : String) : String :=
  match a with
  | some x => if x = "" then b else x
  | none => b

/-- Embedding of the `POST /api/plan-vacation-agents` handler of the
production server.  The second component counts the outbound orchestrator
calls the handler makes while serving this request. -/
def planHandler (env : JsDateEnv) (orch : PlanForward → OrchReply) (body : PlanBody) :
    ApiResponse × Nat :=
  if jsTruthy body.prompt = false ∨ jsIsString body.prompt = false
      ∨ jsTrim (jsStrOf body.prompt) = "" then
    (ApiResponse.badRequest "Missing or invalid prompt" "Please provide a vacation planning request", 0)
  else
    let fwd : PlanForward :=
      { user_prompt := jsStrOf body.prompt,
        clarification_response :=
          if jsTruthy body.clarification_response then some body.clarification_response else none }
    match orch fwd with
    | OrchReply.clarificationNeeded qs reasoning mreq mopt =>
      (ApiResponse.clarification (qs.getD []) (reasoning.getD "") (mreq.getD []) (mopt.getD []), 1)
    | OrchReply.awaitingUserInput sid agent itemType recs summary turn =>
      (ApiResponse.awaiting sid agent itemType recs summary turn, 1)
    | OrchReply.completeReply success dataOpt errOpt allResults td =>
      if success then
        let finalData :=
          match dataOpt with
          | some d =>
            if jsTrim d = "" then
              formatCompleteVacationPlanP2 env (allResults.getD emptyResultsP2)
                (some (td.getD emptyTdP2))
            else d
          | none =>
            formatCompleteVacationPlanP2 env (allResults.getD emptyResultsP2)
              (some (td.getD emptyTdP2))
        (ApiResponse.completeOk finalData "Vacation plan ready" allResults (td.getD emptyTdP2), 1)
      else (planCatch (errOpt.getD "Orchestrator failed to plan vacation"), 1)
    | OrchReply.errorReply errOpt =>
      (planCatch (errOpt.getD "Orchestrator failed to plan vacation"), 1)
    | OrchReply.unexpected success errOpt =>
      if success then (planCatch "Unexpected response from orchestrator", 1)
      else (planCatch (errOpt.getD "Orchestrator failed to plan vacation"), 1)

/-- Embedding of the `POST /api/resume` handler of the production server.
The second component counts the outbound orchestrator calls.  A reply with
the clarification status reaches the resume handler as an unexpected,
success-less object and is thrown as the default resume failure. -/
def resumeHandler (env : JsDateEnv) (orch : ResumeForward → OrchReply) (body : ResumeBody) :
    ApiResponse × Nat :=
  if jsTruthy body.session_id = false ∨ jsTruthy body.user_decision = false then
    (ApiResponse.badRequest "Missing session_id or user_decision"
      "Both session_id and user_decision are required to resume", 0)
  else
    match orch { session_id := body.session_id, user_decision := body.user_decision } with
    | OrchReply.awaitingUserInput sid agent itemType recs summary turn =>
      (ApiResponse.awaiting (some (jsOrStr sid (jsStrOf body.session_id))) agent itemType
        recs summary turn, 1)
    | OrchReply.completeReply success dataOpt errOpt allResults td =>
      if success then
        let finalData :=
          match dataOpt with
          | some d =>
            if jsTrim d = "" then
              formatCompleteVacationPlanP2 env (allResults.getD emptyResultsP2)
                (some (td.getD emptyTdP2))
            else d
          | none =>
            formatCompleteVacationPlanP2 env (allResults.getD emptyResultsP2)
              (some (td.getD emptyTdP2))
        (ApiResponse.completeOk finalData "Vacation plan ready" allResults (td.getD emptyTdP2), 1)
      else (resumeCatch (errOpt.getD "Resume failed"), 1)
    | OrchReply.clarificationNeeded _ _ _ _ =>
      (resumeCatch "Resume failed", 1)
    | OrchReply.errorReply errOpt =>
      (resumeCatch (errOpt.getD "Resume failed"), 1)
    | OrchReply.unexpected success errOpt =>
      if success then (resumeCatch "Unexpected response from resume", 1)
      else (resumeCatch (errOpt.getD "Resume failed"), 1)

/- ===== concrete fixtures for the endpoint theorems ===== -/

/-- A date environment whose locale renderings are empty (their content never
matters for the theorems below). -/
def envZero : JsDateEnv :=
  { localeDateLong := fun _ => "", localeDateTimeShort := fun _ => "",
    localeWeekdayMonthDay := fun _ => "" }

/-- An orchestrator stub that pauses on the hotel stage whatever it is sent. -/
def orchHotelPause : ResumeForward → OrchReply := fun _ =>
  OrchReply.awaitingUserInput (some "sess-1") "HotelAgent" "hotel" JsVal.objv
    "Choose your hotel" (some 3)

/-- A resume body carrying the expected turn of the decision it retries. -/
def resumeBodyF2 : ResumeBody :=
  { session_id := JsVal.strv "sess-1", user_decision := JsVal.objv, turn := JsVal.numv 3 }

/-- An orchestrator stub that keeps asking the same clarification question
whatever it is sent (an insufficient request that stays insufficient). -/
def orchAlwaysClarify : PlanForward → OrchReply := fun _ =>
  OrchReply.clarificationNeeded (some ["Where are you traveling from?"])
    (some "The request is missing the origin.") (some ["origin"]) none

/-- Round one of the clarification exchange: the bare prompt. -/
def planBodyR1 : PlanBody :=
  { prompt := JsVal.strv "Trip to Madrid, 5 days, Dec 10",
    clarification_response := JsVal.undef }

/-- Every later round: the same prompt with a clarification answer attached,
as the client resubmits it. -/
def planBodyR2 : PlanBody :=
  { prompt := JsVal.strv "Trip to Madrid, 5 days, Dec 10",
    clarification_response := JsVal.strv "I would rather not say" }

/-- The response of the `n`-th clarification round (round 0 sends the bare
prompt, every later round resubmits it with an answer).  The handler keeps no
state between rounds, so this is the whole loop. -/
def clarificationRound (n : Nat) : ApiResponse :=
  (planHandler envZero orchAlwaysClarify (if n = 0 then planBodyR1 else planBodyR2)).1

/-- A planning body whose prompt is whitespace only. -/
def planBodyBad : PlanBody :=
  { prompt := JsVal.strv "   ", clarification_response := JsVal.undef }

/-- A resume body with an empty session id. -/
def resumeBodyBad : ResumeBody :=
  { session_id := JsVal.strv "", user_decision := JsVal.objv, turn := JsVal.undef }

/- ===== Orchestration Session Engine =====

Modelled from the spec: the pipeline state machine, stage registry, provider
retry policy and plan aggregator live in the Python orchestrator
(`backend/agents`, reached through `POST /api/agents/orchestrate` and
`/api/agents/resume`), whose sources are not under `src/`.  The definitions
below follow sections 3, 4.1, 4.2, 4.4 and 4.5 of the specification. -/

/-- Modelled from the spec: the session status values of section 3. -/
inductive SessionStatus
  | clarifying
  | running
  | paused
  | complete
  | failed
deriving DecidableEq, Repr

/-- Modelled from the spec: a static stage definition (section 3). -/
structure StageDef where
  name : String
  itemType : String
  requiresApproval : Bool
deriving DecidableEq, Repr

/-- Modelled from the spec: the fixed, ordered stage registry of section 4.1:
flight and hotel require human approval, the rest auto-select. -/
def stageRegistry : List StageDef :=
  [{ name := "Flight", itemType := "flight", requiresApproval := true },
   { name := "Hotel", itemType := "hotel", requiresApproval := true },
   { name := "Restaurant", itemType := "restaurant", requiresApproval := false },
   { name := "Attraction", itemType := "attraction", requiresApproval := false },
   { name := "Itinerary", itemType := "itinerary", requiresApproval := false }]

/-- Modelled from the spec: a candidate is an opaque payload with a stable
id; the engine reads nothing but the id. -/
structure EngineCandidate where
  id : String
  payload : String
deriving DecidableEq, Repr

/-- Modelled from the spec: the session record of section 3. -/
structure EngineSession where
  status : SessionStatus
  stageIndex : Nat
  stageResults : List (String × String)
  pendingCandidates : List EngineCandidate
  refinementCounts : List (String × Nat)
  turn : Nat
deriving DecidableEq, Repr

/-- Modelled from the spec: the tagged user decision. -/
inductive EngineDecision
  | finalChoice (selectedId : String)
  | refineSearch (feedback : String)
deriving DecidableEq, Repr

/-- Modelled from the spec: the error kinds of section 7. -/
inductive EngineErrorKind
  | missingFields
  | clarificationExhausted
  | providerUnavailable
  | stageUnrecoverable
  | stageDegraded
  | validationError
  | refinementLimitExceeded
  | sessionNotFound
  | invalidState
deriving DecidableEq, Repr

/-- Modelled from the spec: the four response shapes of section 4.4. -/
inductive EngineResponse
  | clarificationNeeded (questions : List String)
  | awaitingInput (itemType : String) (candidates : List EngineCandidate) (summary : String)
  | completePlan (plan : String)
  | engineError (kind : EngineErrorKind) (message : String)
deriving DecidableEq, Repr

/-- Modelled from the spec: the Candidate Provider collaborator, as the
engine sees it — for a stage index and an attempt number (0 the first try,
1 the retry) either a candidate list with a summary, or a failure. -/
def CandidateProvider : Type :=
  Nat → Nat → Option (List EngineCandidate × String)

/-- Modelled from the spec (section 4.2): a provider failure is retried once;
the second component counts the provider invocations made (one on first-try
success, two otherwise). -/
def fetchWithRetry (p : CandidateProvider) (i : Nat) :
    Option (List EngineCandidate × String) × Nat :=
  match p i 0 with
  | some r => (some r, 1)
  | none =>
    match p i 1 with
    | some r => (some r, 2)
    | none => (none, 2)

/-- Modelled from the spec: the pure auto-selection function of a
non-approval stage (its choice rule is opaque to the engine; this one keeps
every offered id). -/
def autoSelect (candidates : List EngineCandidate) : String :=
  String.intercalate ", " (candidates.map EngineCandidate.id)

/-- Modelled from the spec (section 4.5): the aggregator folds one entry per
registry stage, in registry order, a missing stage rendering as
`unavailable`. -/
def aggregatePlan (results : List (String × String)) : String :=
  String.intercalate "\n"
    (stageRegistry.map (fun st => st.name ++ ": " ++ ((results.lookup st.name).getD "unavailable")))

/-- Modelled from the spec (sections 4.2 and 4.4): one stage execution.  The
stage provider is queried with the retry policy; on success an approval stage
pauses the session on the candidate set while an auto stage writes its
auto-selected result and continues through `next`; on failure after the retry
an approval stage fails the session while an auto stage records the result
`unavailable` and continues.  `next` is the continuation for the remaining
stages; the numeric component counts provider invocations. -/
def stageStep (p : CandidateProvider)
    (next : EngineSession → EngineResponse × EngineSession × Nat)
    (stage : StageDef) (s : EngineSession) : EngineResponse × EngineSession × Nat :=
  match fetchWithRetry p s.stageIndex with
  | (some (cands, summary), calls) =>
    if stage.requiresApproval then
      (EngineResponse.awaitingInput stage.itemType cands summary,
       { s with status := SessionStatus.paused, pendingCandidates := cands,
                turn := s.turn + 1 }, calls)
    else
      let s2 := { s with stageResults := s.stageResults ++ [(stage.name, autoSelect cands)],
                         stageIndex := s.stageIndex + 1 }
      let r := next s2
      (r.1, r.2.1, calls + r.2.2)
  | (none, calls) =>
    if stage.requiresApproval then
      (EngineResponse.engineError EngineErrorKind.stageUnrecoverable
        ("stage " ++ stage.name ++ " failed after retry"),
       { s with status := SessionStatus.failed, turn := s.turn + 1 }, calls)
    else
      let s2 := { s with stageResults := s.stageResults ++ [(stage.name, "unavailable")],
                         stageIndex := s.stageIndex + 1 }
      let r := next s2
      (r.1, r.2.1, calls + r.2.2)

/-- Modelled from the spec (section 4.4, the `RUNNING` case): run stages from
the session cursor, chaining through auto stages within the same call and
aggregating into `COMPLETE` once the registry is exhausted.  The fuel
argument bounds the loop by the number of stages left. -/
def runStages (p : CandidateProvider) :
    Nat → EngineSession → EngineResponse × EngineSession × Nat
  | 0, s => (EngineResponse.engineError EngineErrorKind.invalidState "stage loop exhausted", s, 0)
  | fuel + 1, s =>
    match stageRegistry[s.stageIndex]? with
    | none =>
      (EngineResponse.completePlan (aggregatePlan s.stageResults),
       { s with status := SessionStatus.complete, turn := s.turn + 1 }, 0)
    | some stage => stageStep p (runStages p fuel) stage s

/-- Modelled from the spec (section 9): the explicit refinement bound. -/
def maxRefinementsPerStage : Nat := 3

/-- Modelled from the spec (section 4.4): the single `advance` entry point of
the state machine, dispatching on the session status.  The returned triple is
the response, the updated session, and the number of provider invocations
made during the call. -/
def advance (p : CandidateProvider) (s : EngineSession) (d : Option EngineDecision) :
    EngineResponse × EngineSession × Nat :=
  match s.status with
  | SessionStatus.complete =>
    (EngineResponse.engineError EngineErrorKind.invalidState
      "session already complete or failed", s, 0)
  | SessionStatus.failed =>
    (EngineResponse.engineError EngineErrorKind.invalidState
      "session already complete or failed", s, 0)
  | SessionStatus.clarifying =>
    (EngineResponse.clarificationNeeded [], s, 0)
  | SessionStatus.running =>
    runStages p (stageRegistry.length - s.stageIndex) s
  | SessionStatus.paused =>
    match d with
    | none =>
      (EngineResponse.engineError EngineErrorKind.validationError
        "a user decision is required to resume a paused session", s, 0)
    | some (EngineDecision.finalChoice selectedId) =>
      match s.pendingCandidates.find? (fun c => c.id == selectedId) with
      | none =>
        (EngineResponse.engineError EngineErrorKind.validationError
          "selected id is not among the pending candidates", s, 0)
      | some c =>
        match stageRegistry[s.stageIndex]? with
        | none =>
          (EngineResponse.engineError EngineErrorKind.invalidState
            "paused session has no current stage", s, 0)
        | some stage =>
          let s2 := { s with status := SessionStatus.running, pendingCandidates := [],
                             stageResults := s.stageResults ++ [(stage.name, c.id)],
                             stageIndex := s.stageIndex + 1, turn := s.turn + 1 }
          runStages p (stageRegistry.length - s2.stageIndex) s2
    | some (EngineDecision.refineSearch feedback) =>
      if jsTrim feedback = "" then
        (EngineResponse.engineError EngineErrorKind.validationError
          "empty refinement feedback", s, 0)
      else
        match stageRegistry[s.stageIndex]? with
        | none =>
          (EngineResponse.engineError EngineErrorKind.invalidState
            "paused session has no current stage", s, 0)
        | some stage =>
          let count := (s.refinementCounts.lookup stage.name).getD 0 + 1
          if maxRefinementsPerStage < count then
            (EngineResponse.engineError EngineErrorKind.refinementLimitExceeded
              "refinement limit exceeded",
             { s with status := SessionStatus.failed, turn := s.turn + 1 }, 0)
          else
            match fetchWithRetry p s.stageIndex with
            | (some (cands, summary), calls) =>
              (EngineResponse.awaitingInput stage.itemType cands summary,
               { s with pendingCandidates := cands,
                        refinementCounts :=
                          (stage.name, count)
                            :: s.refinementCounts.filter (fun e => e.1 ≠ stage.name),
                        turn := s.turn + 1 }, calls)
            | (none, calls) =>
              (EngineResponse.engineError EngineErrorKind.stageUnrecoverable
                ("stage " ++ stage.name ++ " failed after retry"),
               { s with status := SessionStatus.failed, turn := s.turn + 1 }, calls)

/-- A provider that always fails. -/
def providerDown : CandidateProvider := fun _ _ => none

/-- A completed session fixture. -/
def sessComplete : EngineSession :=
  { status := SessionStatus.complete, stageIndex := 5,
    stageResults := [("Flight", "F1"), ("Hotel", "H1"), ("Restaurant", "R1, R2"),
                     ("Attraction", "A1"), ("Itinerary", "I1")],
    pendingCandidates := [], refinementCounts := [], turn := 9 }

/-- A failed session fixture. -/
def sessFailed : EngineSession :=
  { status := SessionStatus.failed, stageIndex := 1, stageResults := [("Flight", "F1")],
    pendingCandidates := [], refinementCounts := [], turn := 4 }

/-- A session paused on the hotel stage with two candidates. -/
def sessPausedHotel : EngineSession :=
  { status := SessionStatus.paused, stageIndex := 1, stageResults := [("Flight", "F1")],
    pendingCandidates := [{ id := "H1", payload := "Hotel One" },
                          { id := "H2", payload := "Hotel Two" }],
    refinementCounts := [], turn := 3 }

/-- A session about to run the flight stage (approval required). -/
def sessRunningFlight : EngineSession :=
  { status := SessionStatus.running, stageIndex := 0, stageResults := [],
    pendingCandidates := [], refinementCounts := [], turn := 0 }

/-- A session about to run the restaurant stage (auto-select). -/
def sessRunningRestaurant : EngineSession :=
  { status := SessionStatus.running, stageIndex := 2,
    stageResults := [("Flight", "F1"), ("Hotel", "H1")],
    pendingCandidates := [], refinementCounts := [], turn := 4 }

end VacationPlanner

namespace VacationPlanner

/- ===== theorems: helpers and C10 ===== -/

theorem charToNat_ofNat (n : Nat) (h : n < 55296) : (Char.ofNat n).toNat = n := by
  unfold Char.ofNat
  rw [dif_pos (Or.inl h)]
  rfl

theorem jsLowerChar_jsUpperChar (c : Char) : jsLowerChar (jsUpperChar c) = jsLowerChar c := by
  unfold jsUpperChar jsLowerChar
  by_cases h : 97 ≤ c.toNat ∧ c.toNat ≤ 122
  · rw [if_pos h]
    have h1 : (Char.ofNat (c.toNat - 32)).toNat = c.toNat - 32 :=
      charToNat_ofNat _ (by omega)
    rw [if_pos (by omega), if_neg (by omega), h1]
    have h2 : c.toNat - 32 + 32 = c.toNat := by omega
    rw [h2, Char.ofNat_toNat]
  · simp only [if_neg h]

theorem jsUpperChar_jsUpperChar (c : Char) : jsUpperChar (jsUpperChar c) = jsUpperChar c := by
  unfold jsUpperChar
  by_cases h : 97 ≤ c.toNat ∧ c.toNat ≤ 122
  · rw [if_pos h]
    have h1 : (Char.ofNat (c.toNat - 32)).toNat = c.toNat - 32 :=
      charToNat_ofNat _ (by omega)
    rw [if_neg (by omega)]
  · simp only [if_neg h]

theorem jsToLower_jsToUpper (s : String) : jsToLower (jsToUpper s) = jsToLower s := by
  unfold jsToLower jsToUpper
  apply congrArg String.mk
  simp only [List.map_map]
  induction s.data with
  | nil => rfl
  | cons c cs ih =>
    simp only [List.map_cons, Function.comp_apply, ih, jsLowerChar_jsUpperChar]

theorem jsToUpper_jsToUpper (s : String) : jsToUpper (jsToUpper s) = jsToUpper s := by
  unfold jsToUpper
  apply congrArg String.mk
  simp only [List.map_map]
  induction s.data with
  | nil => rfl
  | cons c cs ih =>
    simp only [List.map_cons, Function.comp_apply, ih, jsUpperChar_jsUpperChar]

theorem lookup_mem_values {l : List (String × String)} {k v : String}
    (h : l.lookup k = some v) : v ∈ l.map Prod.snd := by
  induction l with
  | nil => exact absurd h (by simp [List.lookup])
  | cons p rest ih =>
    obtain ⟨k', v'⟩ := p
    simp only [List.lookup] at h
    cases hk : k == k' with
    | true =>
      rw [hk] at h
      injection h with h
      subst h
      simp
    | false =>
      rw [hk] at h
      simp only [List.map_cons, List.mem_cons]
      exact Or.inr (ih h)

theorem airportCodes_fixed :
    ∀ c ∈ cityToCodeMap.map Prod.snd, convertToAirportCode c = c := by decide

/-- Claim C10: convertToAirportCode is idempotent.  A mapped city name is sent
to its IATA code, and each such code is a fixed point of the function; any
other input is uppercased, whose lowercase misses the map again and which the
further uppercasing leaves unchanged. -/
theorem convertToAirportCode_idempotent (s : String) :
    convertToAirportCode (convertToAirportCode s) = convertToAirportCode s := by
  rcases h : cityToCode (jsToLower s) with _ | code
  · have e1 : convertToAirportCode s = jsToUpper s := by
      unfold convertToAirportCode; rw [h]
    have e2 : cityToCode (jsToLower (jsToUpper s)) = none := by
      rw [jsToLower_jsToUpper, h]
    rw [e1]
    unfold convertToAirportCode
    rw [e2]
    exact jsToUpper_jsToUpper s
  · have e1 : convertToAirportCode s = code := by
      unfold convertToAirportCode; rw [h]
    rw [e1]
    exact airportCodes_fixed code (lookup_mem_values h)

/- ===== theorems: C2 ===== -/

/-- Counterexample to claim C2: on the origin-absent request of the
specification example, `simpleFallbackParser` does not ask for clarification;
it succeeds with the default origin `JFK` (and a default date), so stage
execution proceeds. -/
theorem c2_counterexample :
    simpleFallbackParser promptNoOrigin =
      some (ParseOutcome.ok { origin := "JFK", destination := "MAD",
                              departure_date := "2025-12-10", return_date := "2025-12-15",
                              passengers := 2, budget := none }) := by decide

/-- Claim C2 (amended): the clarification gate of the fallback parser fires
exactly when no destination pattern matches, and then reports only the
destination as missing; a missing origin is silently defaulted to `JFK`, and
a missing date to `2025-12-10`. -/
theorem c2_amended_clarification_only_for_destination (prompt : String) (r : ParseOutcome)
    (h : simpleFallbackParser prompt = some r) :
    ((∃ m, r = ParseOutcome.needsClarification m) ↔ extractDestination (jsToLower prompt) = none)
    ∧ (∀ m, r = ParseOutcome.needsClarification m → m = ["destination"])
    ∧ (∀ td, r = ParseOutcome.ok td → td.origin = extractOrigin (jsToLower prompt))
    ∧ (jsIncludes (jsToLower prompt) "from santander" = false →
        jsIncludes (jsToLower prompt) "from madrid" = false →
        jsIncludes (jsToLower prompt) "from barcelona" = false →
        jsIncludes (jsToLower prompt) "from new york" = false →
        jsIncludes (jsToLower prompt) "from nyc" = false →
        jsIncludes (jsToLower prompt) "from la" = false →
        jsIncludes (jsToLower prompt) "from los angeles" = false →
        extractOrigin (jsToLower prompt) = "JFK") := by
  have hlast : jsIncludes (jsToLower prompt) "from santander" = false →
      jsIncludes (jsToLower prompt) "from madrid" = false →
      jsIncludes (jsToLower prompt) "from barcelona" = false →
      jsIncludes (jsToLower prompt) "from new york" = false →
      jsIncludes (jsToLower prompt) "from nyc" = false →
      jsIncludes (jsToLower prompt) "from la" = false →
      jsIncludes (jsToLower prompt) "from los angeles" = false →
      extractOrigin (jsToLower prompt) = "JFK" := by
    intro h1 h2 h3 h4 h5 h6 h7
    simp [extractOrigin, h1, h2, h3, h4, h5, h6, h7]
  rcases hp : computeReturnDate (extractDepartureDate prompt)
      ((findDaysCapture prompt.data).getD 5) with _ | ret
  · rw [simpleFallbackParser] at h
    rw [hp] at h
    exact absurd h (by simp)
  · rcases hd : extractDestination (jsToLower prompt) with _ | dest
    · rw [simpleFallbackParser, hp, hd] at h
      injection h with h
      subst h
      refine ⟨⟨fun _ => rfl, fun _ => ⟨_, rfl⟩⟩, ?_, ?_, hlast⟩
      · intro m hm
        injection hm with hm
        exact hm.symm
      · intro td htd
        exact absurd htd (by simp)
    · rw [simpleFallbackParser, hp, hd] at h
      injection h with h
      subst h
      refine ⟨⟨?_, ?_⟩, ?_, ?_, hlast⟩
      · rintro ⟨m, hm⟩
        exact absurd hm (by simp)
      · intro hcontra
        exact absurd hcontra (by simp)
      · intro m hm
        exact absurd hm (by simp)
      · intro td htd
        injection htd with htd
        subst htd
        rfl

/-- Witness for the amended claim C2 at a concrete request containing every
field. -/
theorem c2_amended_witness :
    tdParisFromLA.origin = extractOrigin (jsToLower promptParisFromLA) :=
  ((c2_amended_clarification_only_for_destination promptParisFromLA
      (ParseOutcome.ok tdParisFromLA) (by decide)).2.2.1) tdParisFromLA rfl

/-- On a huge day capture the parser model takes the throwing path (`none`),
matching the RangeError the source raises from `toISOString` after `setDate`
leaves the Date range; the endpoint then answers 500, not a clarification. -/
theorem simpleFallbackParser_overflow_throws :
    simpleFallbackParser promptOverflowDays = none := by decide

/- ===== theorems: C1 ===== -/

theorem flightsBody_not_ok (r : OrchResultsJS) (h : flightsOk r = false) :
    flightsBody r = "Flight information unavailable.\n\n" := by
  unfold flightsOk at h
  unfold flightsBody
  cases hf : r.flights with
  | none => rfl
  | some fd =>
      rw [hf] at h
      have h2 : (fd.success && decide (0 < fd.flights.length)) = false := h
      dsimp only
      rw [h2]
      rfl

theorem hotelsBody_not_ok (r : OrchResultsJS) (h : hotelsOk r = false) :
    hotelsBody r = "Hotel recommendations unavailable.\n\n" := by
  unfold hotelsOk at h
  unfold hotelsBody
  cases hf : r.hotels with
  | none => rfl
  | some hd =>
      rw [hf] at h
      have h2 : (hd.success && decide (0 < hd.hotels.length)) = false := h
      dsimp only
      rw [h2]
      rfl

theorem restaurantsBody_not_ok (r : OrchResultsJS) (h : restaurantsOk r = false) :
    restaurantsBody r = "Restaurant recommendations unavailable.\n\n" := by
  unfold restaurantsOk at h
  unfold restaurantsBody
  cases hf : r.restaurants with
  | none => rfl
  | some rd =>
      rw [hf] at h
      have h2 : (rd.success && decide (0 < rd.restaurants.length)) = false := h
      dsimp only
      rw [h2]
      rfl

theorem attractionsBody_not_ok (r : OrchResultsJS) (h : attractionsOk r = false) :
    attractionsBody r = "Attraction recommendations unavailable.\n\n" := by
  unfold attractionsOk at h
  unfold attractionsBody
  cases hf : r.attractions with
  | none => rfl
  | some ad =>
      rw [hf] at h
      have h2 : (ad.success && decide (0 < ad.attractions.length)) = false := h
      dsimp only
      rw [h2]
      rfl

theorem itineraryBody_not_ok (r : OrchResultsJS) (h : itineraryOk r = false) :
    itineraryBody r = "Itinerary will be generated based on preferences.\n\n" := by
  unfold itineraryOk at h
  unfold itineraryBody
  cases hf : r.itinerary with
  | none => rfl
  | some it =>
      rw [hf] at h
      have h2 : (it.success && decide (0 < it.itinerary.length)) = false := h
      dsimp only
      rw [h2]
      rfl

/-- Claim C1: for every input, the plan document is the header followed by
exactly one section per registry stage, in the fixed order flights, hotels,
restaurants, attractions, itinerary; every section starts with its fixed
heading whatever the data, and a missing or unsuccessful stage renders its
placeholder (unavailable) body instead of being omitted, so the document
shape is independent of which stages failed. -/
theorem c1_formatCompleteVacationPlan_shape (results : OrchResultsJS) (td : TripDetailsJS) :
    formatCompleteVacationPlan results td =
      planHeaderJS td ++ sectionSep
        ++ flightsSection results ++ sectionSep
        ++ hotelsSection results ++ sectionSep
        ++ restaurantsSection results ++ sectionSep
        ++ attractionsSection results ++ sectionSep
        ++ itinerarySection results ++ sectionSep
        ++ planFooterJS
    ∧ (∃ t, flightsSection results = "## ✈️ Flights\n\n" ++ t)
    ∧ (∃ t, hotelsSection results = "## 🏨 Hotels\n\n" ++ t)
    ∧ (∃ t, restaurantsSection results = "## 🍽️ Restaurants\n\n" ++ t)
    ∧ (∃ t, attractionsSection results = "## 🎭 Things to Do\n\n" ++ t)
    ∧ (∃ t, itinerarySection results = "## 📅 Day-by-Day Itinerary\n\n" ++ t)
    ∧ (flightsOk results = false →
        flightsSection results = "## ✈️ Flights\n\n" ++ "Flight information unavailable.\n\n")
    ∧ (hotelsOk results = false →
        hotelsSection results = "## 🏨 Hotels\n\n" ++ "Hotel recommendations unavailable.\n\n")
    ∧ (restaurantsOk results = false →
        restaurantsSection results = "## 🍽️ Restaurants\n\n" ++ "Restaurant recommendations unavailable.\n\n")
    ∧ (attractionsOk results = false →
        attractionsSection results = "## 🎭 Things to Do\n\n" ++ "Attraction recommendations unavailable.\n\n")
    ∧ (itineraryOk results = false →
        itinerarySection results = "## 📅 Day-by-Day Itinerary\n\n" ++ "Itinerary will be generated based on preferences.\n\n") := by
  refine ⟨rfl, ⟨_, rfl⟩, ⟨_, rfl⟩, ⟨_, rfl⟩, ⟨_, rfl⟩, ⟨_, rfl⟩, ?_, ?_, ?_, ?_, ?_⟩
  · intro h; rw [flightsSection, flightsBody_not_ok _ h]
  · intro h; rw [hotelsSection, hotelsBody_not_ok _ h]
  · intro h; rw [restaurantsSection, restaurantsBody_not_ok _ h]
  · intro h; rw [attractionsSection, attractionsBody_not_ok _ h]
  · intro h; rw [itinerarySection, itineraryBody_not_ok _ h]

/-- Witness for claim C1: with every stage missing, all five sections are
still present, each rendered with its placeholder body. -/
theorem c1_witness :
    flightsSection resultsAllMissing = "## ✈️ Flights\n\n" ++ "Flight information unavailable.\n\n"
    ∧ hotelsSection resultsAllMissing = "## 🏨 Hotels\n\n" ++ "Hotel recommendations unavailable.\n\n"
    ∧ restaurantsSection resultsAllMissing = "## 🍽️ Restaurants\n\n" ++ "Restaurant recommendations unavailable.\n\n"
    ∧ attractionsSection resultsAllMissing = "## 🎭 Things to Do\n\n" ++ "Attraction recommendations unavailable.\n\n"
    ∧ itinerarySection resultsAllMissing = "## 📅 Day-by-Day Itinerary\n\n" ++ "Itinerary will be generated based on preferences.\n\n" := by
  obtain ⟨-, -, -, -, -, -, hf, hh, hr, ha, hi⟩ :=
    c1_formatCompleteVacationPlan_shape resultsAllMissing tdSample
  exact ⟨hf rfl, hh rfl, hr rfl, ha rfl, hi rfl⟩

/- ===== theorems: C8 ===== -/

theorem publicPaths_contains_false {path : String} (hp : path ≠ "/health") :
    publicPaths.contains path = false := by
  simp only [publicPaths, List.contains_cons, List.contains_nil, Bool.or_false,
    beq_eq_false_iff_ne, ne_eq]
  exact fun hh => hp hh

/-- Claim C8: the middleware serves `/health` without authentication; every
other path reaches an endpoint handler exactly when the Authorization header
is a Bearer header whose token (the chunk after the first space) is non-empty
and contains an at sign and a dot, and otherwise the request is answered with
the 401 unauthorized response (success false), never reaching a handler. -/
theorem c8_auth_wall (path : String) (h : Option String) :
    (path = "/health" → authMiddleware path h = AuthOutcome.next none)
    ∧ (path ≠ "/health" → ∀ hdr, h = some hdr → authAccepts (some hdr) →
        authMiddleware path h = AuthOutcome.next (some (bearerTokenOf hdr)))
    ∧ (path ≠ "/health" → ¬ authAccepts h →
        (authMiddleware path h = AuthOutcome.unauthorized "Authentication required"
          ∨ authMiddleware path h = AuthOutcome.unauthorized "Invalid authentication")) := by
  refine ⟨?_, ?_, ?_⟩
  · intro hp
    subst hp
    rfl
  · intro hp hdr he ha
    subst he
    obtain ⟨h1, h2, h3, h4⟩ := ha
    simp only [authMiddleware, publicPaths_contains_false hp, Bool.false_eq_true, if_false, h1,
      if_true]
    rw [if_pos ⟨h2, h3, h4⟩]
  · intro hp hna
    cases h with
    | none =>
      left
      unfold authMiddleware
      rw [publicPaths_contains_false hp]
      rfl
    | some hdr =>
      have hred : authMiddleware path (some hdr) =
          (if jsStartsWith hdr "Bearer " = true then
            (if bearerTokenOf hdr ≠ "" ∧ jsIncludes (bearerTokenOf hdr) "@" = true
                ∧ jsIncludes (bearerTokenOf hdr) "." = true then
              AuthOutcome.next (some (bearerTokenOf hdr))
            else AuthOutcome.unauthorized "Invalid authentication")
          else AuthOutcome.unauthorized "Authentication required") := by
        unfold authMiddleware
        rw [publicPaths_contains_false hp]
        rfl
      rw [hred]
      cases hs : jsStartsWith hdr "Bearer " with
      | false =>
        left
        rfl
      | true =>
        by_cases hc2 : bearerTokenOf hdr ≠ "" ∧ jsIncludes (bearerTokenOf hdr) "@" = true
            ∧ jsIncludes (bearerTokenOf hdr) "." = true
        · exact absurd ⟨hs, hc2.1, hc2.2.1, hc2.2.2⟩ hna
        · rw [if_neg hc2]
          right
          rfl

/-- Witness for claim C8 at concrete requests: a valid email-shaped Bearer
token passes, a missing header and a malformed token are rejected with 401,
and `/health` needs no header. -/
theorem c8_auth_wall_witness :
    authMiddleware "/health" none = AuthOutcome.next none
    ∧ authMiddleware "/api/resume" (some "Bearer demo@vacation-planner.ai")
        = AuthOutcome.next (some "demo@vacation-planner.ai")
    ∧ (authMiddleware "/api/resume" none = AuthOutcome.unauthorized "Authentication required"
        ∨ authMiddleware "/api/resume" none = AuthOutcome.unauthorized "Invalid authentication")
    ∧ (authMiddleware "/api/resume" (some "Bearer not-an-email")
          = AuthOutcome.unauthorized "Authentication required"
        ∨ authMiddleware "/api/resume" (some "Bearer not-an-email")
          = AuthOutcome.unauthorized "Invalid authentication") := by
  refine ⟨(c8_auth_wall "/health" none).1 rfl, ?_, ?_, ?_⟩
  · exact (c8_auth_wall "/api/resume" (some "Bearer demo@vacation-planner.ai")).2.1
      (by decide) _ rfl (by decide)
  · exact (c8_auth_wall "/api/resume" none).2.2 (by decide) (by decide)
  · exact (c8_auth_wall "/api/resume" (some "Bearer not-an-email")).2.2 (by decide) (by decide)

/- ===== theorems: C3 ===== -/

/-- Counterexample to claim C3: resuming twice with the same session id, the
same expected turn and the same decision makes two orchestrator invocations,
not one; each identical call re-invokes the provider side (there is no cached
response and the supplied turn is never read). -/
theorem c3_counterexample :
    (resumeHandler envZero orchHotelPause resumeBodyF2).2 = 1
    ∧ (resumeHandler envZero orchHotelPause resumeBodyF2).2
        + (resumeHandler envZero orchHotelPause resumeBodyF2).2 = 2 := ⟨rfl, rfl⟩

/-- Claim C3 (amended): the resume endpoint implements no idempotency: every
call with a valid body performs exactly one orchestrator invocation, and a
`turn` field in the body is ignored entirely (the handler is a pure function
of the rest of the body, so identical calls do return byte-identical
responses, but each of them re-invokes the orchestrator). -/
theorem c3_amended_no_idempotency (env : JsDateEnv) (orch : ResumeForward → OrchReply)
    (b : ResumeBody) (h1 : jsTruthy b.session_id = true) (h2 : jsTruthy b.user_decision = true) :
    (resumeHandler env orch b).2 = 1
    ∧ ∀ t t' : JsVal,
        resumeHandler env orch { b with turn := t } = resumeHandler env orch { b with turn := t' } := by
  constructor
  · have hcond : ¬(jsTruthy b.session_id = false ∨ jsTruthy b.user_decision = false) := by
      simp [h1, h2]
    unfold resumeHandler
    rw [if_neg hcond]
    cases orch { session_id := b.session_id, user_decision := b.user_decision } with
    | awaitingUserInput sid agent itemType recs summary turn => rfl
    | completeReply success dataOpt errOpt allResults td => cases success <;> rfl
    | clarificationNeeded q r mr mo => rfl
    | errorReply e => rfl
    | unexpected success e => cases success <;> rfl
  · intro t t'
    rfl

/-- Witness for the amended claim C3 at the concrete retry fixture. -/
theorem c3_amended_witness :
    (resumeHandler envZero orchHotelPause resumeBodyF2).2 = 1 :=
  (c3_amended_no_idempotency envZero orchHotelPause resumeBodyF2 rfl rfl).1

/- ===== theorems: C6 ===== -/

/-- Claim C6 (the code at the failing input): the clarification exchange is
unbounded.  The handler keeps no per-session round counter, so with an
orchestrator that keeps finding the request insufficient, every round -
including the third and every later one - is answered with another
clarification request (HTTP 200), and no round ever produces a failure with
a ClarificationExhausted kind (no such error kind exists in the code). -/
theorem c6_clarification_unbounded : ∀ n : Nat,
    clarificationRound n =
      ApiResponse.clarification ["Where are you traveling from?"]
        "The request is missing the origin." ["origin"] []
    ∧ httpStatusOf (clarificationRound n) = 200 := by
  intro n
  cases n with
  | zero => exact ⟨rfl, rfl⟩
  | succ k => exact ⟨rfl, rfl⟩

/- ===== theorems: C9 ===== -/

/-- Claim C9: a planning request without a non-empty string prompt, and a
resume request without a truthy session id or decision, are answered with
HTTP 400 and success false, and the orchestrator is never contacted (zero
outbound calls). -/
theorem c9_invalid_bodies_rejected (env : JsDateEnv)
    (orchP : PlanForward → OrchReply) (orchR : ResumeForward → OrchReply)
    (pb : PlanBody) (rb : ResumeBody)
    (hp : jsTruthy pb.prompt = false ∨ jsIsString pb.prompt = false
      ∨ jsTrim (jsStrOf pb.prompt) = "")
    (hr : jsTruthy rb.session_id = false ∨ jsTruthy rb.user_decision = false) :
    planHandler env orchP pb =
      (ApiResponse.badRequest "Missing or invalid prompt"
        "Please provide a vacation planning request", 0)
    ∧ httpStatusOf (planHandler env orchP pb).1 = 400
    ∧ successFieldOf (planHandler env orchP pb).1 = some false
    ∧ resumeHandler env orchR rb =
      (ApiResponse.badRequest "Missing session_id or user_decision"
        "Both session_id and user_decision are required to resume", 0)
    ∧ httpStatusOf (resumeHandler env orchR rb).1 = 400
    ∧ successFieldOf (resumeHandler env orchR rb).1 = some false := by
  have e1 : planHandler env orchP pb =
      (ApiResponse.badRequest "Missing or invalid prompt"
        "Please provide a vacation planning request", 0) := by
    unfold planHandler
    rw [if_pos hp]
  have e2 : resumeHandler env orchR rb =
      (ApiResponse.badRequest "Missing session_id or user_decision"
        "Both session_id and user_decision are required to resume", 0) := by
    unfold resumeHandler
    rw [if_pos hr]
  exact ⟨e1, by rw [e1]; rfl, by rw [e1]; rfl, e2, by rw [e2]; rfl, by rw [e2]; rfl⟩

/-- Witness for claim C9: a whitespace-only prompt and an empty session id
are both rejected without contacting the orchestrator. -/
theorem c9_witness :
    planHandler envZero orchAlwaysClarify planBodyBad =
      (ApiResponse.badRequest "Missing or invalid prompt"
        "Please provide a vacation planning request", 0)
    ∧ resumeHandler envZero orchHotelPause resumeBodyBad =
      (ApiResponse.badRequest "Missing session_id or user_decision"
        "Both session_id and user_decision are required to resume", 0) := by
  have h := c9_invalid_bodies_rejected envZero orchAlwaysClarify orchHotelPause
    planBodyBad resumeBodyBad (Or.inr (Or.inr (by decide))) (Or.inl (by decide))
  exact ⟨h.1, h.2.2.2.1⟩

/- ===== theorems: the spec-modelled engine (C4, C5, C7) ===== -/

/-- Claim C4: on a session whose status is COMPLETE or FAILED, any further
advance call is rejected with InvalidState, the session is returned unchanged
(performing no mutation and no provider call), and in particular the status
is preserved, so FAILED is terminal. -/
theorem c4_terminal_states_reject (p : CandidateProvider) (s : EngineSession)
    (d : Option EngineDecision)
    (h : s.status = SessionStatus.complete ∨ s.status = SessionStatus.failed) :
    advance p s d =
      (EngineResponse.engineError EngineErrorKind.invalidState
        "session already complete or failed", s, 0)
    ∧ (advance p s d).2.1.status = s.status := by
  rcases h with h | h
  all_goals
    unfold advance
    rw [h]
    exact ⟨rfl, h⟩

/-- Claim C5: a paused session receiving a final choice whose id is not among
the pending candidates is answered with ValidationError and returned entirely
unchanged (status, pending candidates and every other field), with no
provider call. -/
theorem c5_invalid_selection_rejected (p : CandidateProvider) (s : EngineSession)
    (selectedId : String) (hp : s.status = SessionStatus.paused)
    (hsel : ∀ c ∈ s.pendingCandidates, c.id ≠ selectedId) :
    advance p s (some (EngineDecision.finalChoice selectedId)) =
      (EngineResponse.engineError EngineErrorKind.validationError
        "selected id is not among the pending candidates", s, 0) := by
  have hfind : s.pendingCandidates.find? (fun c => c.id == selectedId) = none := by
    rw [List.find?_eq_none]
    intro c hc
    simpa using hsel c hc
  unfold advance
  rw [hp]
  simp only [hfind]

theorem runStages_zero (p : CandidateProvider) (s : EngineSession) :
    runStages p 0 s =
      (EngineResponse.engineError EngineErrorKind.invalidState "stage loop exhausted", s, 0) := rfl

theorem runStages_succ_none (p : CandidateProvider) (k : Nat) (s : EngineSession)
    (h : stageRegistry[s.stageIndex]? = none) :
    runStages p (k + 1) s =
      (EngineResponse.completePlan (aggregatePlan s.stageResults),
       { s with status := SessionStatus.complete, turn := s.turn + 1 }, 0) := by
  unfold runStages
  rw [h]

theorem runStages_succ_some (p : CandidateProvider) (k : Nat) (s : EngineSession)
    (stage : StageDef) (h : stageRegistry[s.stageIndex]? = some stage) :
    runStages p (k + 1) s = stageStep p (runStages p k) stage s := by
  unfold runStages
  rw [h]

theorem stageStep_pause (p : CandidateProvider)
    (next : EngineSession → EngineResponse × EngineSession × Nat)
    (stage : StageDef) (s : EngineSession) (cands : List EngineCandidate)
    (summary : String) (calls : Nat)
    (hf : fetchWithRetry p s.stageIndex = (some (cands, summary), calls))
    (hap : stage.requiresApproval = true) :
    stageStep p next stage s =
      (EngineResponse.awaitingInput stage.itemType cands summary,
       { s with status := SessionStatus.paused, pendingCandidates := cands,
                turn := s.turn + 1 }, calls) := by
  unfold stageStep
  rw [hf, hap]
  rfl

theorem stageStep_auto_ok (p : CandidateProvider)
    (next : EngineSession → EngineResponse × EngineSession × Nat)
    (stage : StageDef) (s : EngineSession) (cands : List EngineCandidate)
    (summary : String) (calls : Nat)
    (hf : fetchWithRetry p s.stageIndex = (some (cands, summary), calls))
    (hap : stage.requiresApproval = false) :
    stageStep p next stage s =
      ((next { s with stageResults := s.stageResults ++ [(stage.name, autoSelect cands)],
                      stageIndex := s.stageIndex + 1 }).1,
       (next { s with stageResults := s.stageResults ++ [(stage.name, autoSelect cands)],
                      stageIndex := s.stageIndex + 1 }).2.1,
       calls + (next { s with stageResults := s.stageResults ++ [(stage.name, autoSelect cands)],
                              stageIndex := s.stageIndex + 1 }).2.2) := by
  unfold stageStep
  rw [hf, hap]
  rfl

theorem stageStep_fail_approval (p : CandidateProvider)
    (next : EngineSession → EngineResponse × EngineSession × Nat)
    (stage : StageDef) (s : EngineSession) (calls : Nat)
    (hf : fetchWithRetry p s.stageIndex = (none, calls))
    (hap : stage.requiresApproval = true) :
    stageStep p next stage s =
      (EngineResponse.engineError EngineErrorKind.stageUnrecoverable
        ("stage " ++ stage.name ++ " failed after retry"),
       { s with status := SessionStatus.failed, turn := s.turn + 1 }, calls) := by
  unfold stageStep
  rw [hf, hap]
  rfl

theorem stageStep_fail_auto (p : CandidateProvider)
    (next : EngineSession → EngineResponse × EngineSession × Nat)
    (stage : StageDef) (s : EngineSession) (calls : Nat)
    (hf : fetchWithRetry p s.stageIndex = (none, calls))
    (hap : stage.requiresApproval = false) :
    stageStep p next stage s =
      ((next { s with stageResults := s.stageResults ++ [(stage.name, "unavailable")],
                      stageIndex := s.stageIndex + 1 }).1,
       (next { s with stageResults := s.stageResults ++ [(stage.name, "unavailable")],
                      stageIndex := s.stageIndex + 1 }).2.1,
       calls + (next { s with stageResults := s.stageResults ++ [(stage.name, "unavailable")],
                              stageIndex := s.stageIndex + 1 }).2.2) := by
  unfold stageStep
  rw [hf, hap]
  rfl

theorem stageRegistry_getElem_lt (i : Nat) (st : StageDef)
    (h : stageRegistry[i]? = some st) : i < stageRegistry.length := by
  by_contra hge
  push_neg at hge
  rw [List.getElem?_eq_none hge] at h
  exact Option.noConfusion h

theorem stageRegistry_auto_from_two (j : Nat) (st : StageDef) (hj : 2 ≤ j)
    (h : stageRegistry[j]? = some st) : st.requiresApproval = false := by
  match j, hj with
  | 2, _ => injection h with h; subst h; rfl
  | 3, _ => injection h with h; subst h; rfl
  | 4, _ => injection h with h; subst h; rfl
  | (n + 5), _ =>
    have hlen : stageRegistry.length ≤ n + 5 := by
      simp only [stageRegistry, List.length_cons, List.length_nil]
      omega
    rw [List.getElem?_eq_none hlen] at h
    exact Option.noConfusion h

theorem stageRegistry_auto_ge_two (i : Nat) (st : StageDef)
    (h : stageRegistry[i]? = some st) (ha : st.requiresApproval = false) : 2 ≤ i := by
  match i with
  | 0 => injection h with h; subst h; exact absurd ha (by decide)
  | 1 => injection h with h; subst h; exact absurd ha (by decide)
  | n + 2 => omega

theorem runStages_extends (p : CandidateProvider) :
    ∀ fuel s, (∃ t, (runStages p fuel s).2.1.stageResults = s.stageResults ++ t)
      ∧ s.stageIndex ≤ (runStages p fuel s).2.1.stageIndex := by
  intro fuel
  induction fuel with
  | zero =>
    intro s
    exact ⟨⟨[], by simp [runStages_zero]⟩, by simp [runStages_zero]⟩
  | succ k ih =>
    intro s
    cases hreg : stageRegistry[s.stageIndex]? with
    | none =>
      rw [runStages_succ_none p k s hreg]
      exact ⟨⟨[], by simp⟩, le_refl _⟩
    | some stage =>
      rw [runStages_succ_some p k s stage hreg]
      rcases hf : fetchWithRetry p s.stageIndex with ⟨res, calls⟩
      cases res with
      | some pr =>
        obtain ⟨cands, summary⟩ := pr
        cases hb : stage.requiresApproval with
        | true =>
          rw [stageStep_pause p _ stage s cands summary calls hf hb]
          exact ⟨⟨[], by simp⟩, le_refl _⟩
        | false =>
          rw [stageStep_auto_ok p _ stage s cands summary calls hf hb]
          obtain ⟨⟨t', ht'⟩, hle⟩ :=
            ih { s with stageResults := s.stageResults ++ [(stage.name, autoSelect cands)],
                        stageIndex := s.stageIndex + 1 }
          refine ⟨⟨(stage.name, autoSelect cands) :: t', ?_⟩, ?_⟩
          · rw [ht']
            simp
          · exact le_trans (Nat.le_succ _) hle
      | none =>
        cases hb : stage.requiresApproval with
        | true =>
          rw [stageStep_fail_approval p _ stage s calls hf hb]
          exact ⟨⟨[], by simp⟩, le_refl _⟩
        | false =>
          rw [stageStep_fail_auto p _ stage s calls hf hb]
          obtain ⟨⟨t', ht'⟩, hle⟩ :=
            ih { s with stageResults := s.stageResults ++ [(stage.name, "unavailable")],
                        stageIndex := s.stageIndex + 1 }
          refine ⟨⟨(stage.name, "unavailable") :: t', ?_⟩, ?_⟩
          · rw [ht']
            simp
          · exact le_trans (Nat.le_succ _) hle

theorem runStages_auto_no_fail (p : CandidateProvider) :
    ∀ fuel s, s.status ≠ SessionStatus.failed →
      (∀ j st, s.stageIndex ≤ j → stageRegistry[j]? = some st → st.requiresApproval = false) →
      (runStages p fuel s).2.1.status ≠ SessionStatus.failed := by
  intro fuel
  induction fuel with
  | zero =>
    intro s hs _
    simpa [runStages_zero] using hs
  | succ k ih =>
    intro s hs hauto
    cases hreg : stageRegistry[s.stageIndex]? with
    | none =>
      rw [runStages_succ_none p k s hreg]
      simp
    | some stage =>
      rw [runStages_succ_some p k s stage hreg]
      have hst : stage.requiresApproval = false := hauto _ _ (le_refl _) hreg
      rcases hf : fetchWithRetry p s.stageIndex with ⟨res, calls⟩
      cases res with
      | some pr =>
        obtain ⟨cands, summary⟩ := pr
        rw [stageStep_auto_ok p _ stage s cands summary calls hf hst]
        exact ih _ hs (fun j st hj hr => hauto j st (le_trans (Nat.le_succ _) hj) hr)
      | none =>
        rw [stageStep_fail_auto p _ stage s calls hf hst]
        exact ih _ hs (fun j st hj hr => hauto j st (le_trans (Nat.le_succ _) hj) hr)

theorem stageStep_fail_auto_snd (p : CandidateProvider)
    (next : EngineSession → EngineResponse × EngineSession × Nat)
    (stage : StageDef) (s : EngineSession) (calls : Nat)
    (hf : fetchWithRetry p s.stageIndex = (none, calls))
    (hap : stage.requiresApproval = false) :
    (stageStep p next stage s).2.1 =
      (next { s with stageResults := s.stageResults ++ [(stage.name, "unavailable")],
                     stageIndex := s.stageIndex + 1 }).2.1 := by
  rw [stageStep_fail_auto p next stage s calls hf hap]

/-- Claim C7: a provider failure is retried exactly once (two invocations; a
success on the first try makes one); after the retry also fails, an
approval-required stage makes the session terminally failed with
StageUnrecoverable, while an auto-select stage records the result
`unavailable`, still advances past the stage, and the session does not
fail. -/
theorem c7_provider_retry_and_degrade (p : CandidateProvider) (s : EngineSession) :
    (∀ i, p i 0 = none → (fetchWithRetry p i).2 = 2)
    ∧ (∀ i r, p i 0 = some r → (fetchWithRetry p i).2 = 1)
    ∧ (∀ st, s.status = SessionStatus.running → stageRegistry[s.stageIndex]? = some st →
        st.requiresApproval = true → p s.stageIndex 0 = none → p s.stageIndex 1 = none →
        advance p s none =
          (EngineResponse.engineError EngineErrorKind.stageUnrecoverable
            ("stage " ++ st.name ++ " failed after retry"),
           { s with status := SessionStatus.failed, turn := s.turn + 1 }, 2))
    ∧ (∀ st, s.status = SessionStatus.running → stageRegistry[s.stageIndex]? = some st →
        st.requiresApproval = false → p s.stageIndex 0 = none → p s.stageIndex 1 = none →
        (st.name, "unavailable") ∈ (advance p s none).2.1.stageResults
        ∧ s.stageIndex < (advance p s none).2.1.stageIndex
        ∧ (advance p s none).2.1.status ≠ SessionStatus.failed) := by
  refine ⟨?_, ?_, ?_, ?_⟩
  · intro i h
    unfold fetchWithRetry
    rw [h]
    cases hp1 : p i 1 <;> rfl
  · intro i r h
    unfold fetchWithRetry
    rw [h]
  · intro st hs hreg hap h0 h1
    have hfetch : fetchWithRetry p s.stageIndex = (none, 2) := by
      unfold fetchWithRetry
      rw [h0, h1]
    have hadv : advance p s none = runStages p (stageRegistry.length - s.stageIndex) s := by
      unfold advance
      rw [hs]
    have hk : stageRegistry.length - s.stageIndex
        = (stageRegistry.length - s.stageIndex - 1) + 1 := by
      have := stageRegistry_getElem_lt _ _ hreg
      omega
    rw [hadv, hk, runStages_succ_some p _ s st hreg,
      stageStep_fail_approval p _ st s 2 hfetch hap]
  · intro st hs hreg hap h0 h1
    have hfetch : fetchWithRetry p s.stageIndex = (none, 2) := by
      unfold fetchWithRetry
      rw [h0, h1]
    have hadv : advance p s none = runStages p (stageRegistry.length - s.stageIndex) s := by
      unfold advance
      rw [hs]
    have hk : stageRegistry.length - s.stageIndex
        = (stageRegistry.length - s.stageIndex - 1) + 1 := by
      have := stageRegistry_getElem_lt _ _ hreg
      omega
    rw [hadv, hk, runStages_succ_some p _ s st hreg,
      stageStep_fail_auto_snd p _ st s 2 hfetch hap]
    obtain ⟨⟨t, ht⟩, hle⟩ := runStages_extends p (stageRegistry.length - s.stageIndex - 1)
      { s with stageResults := s.stageResults ++ [(st.name, "unavailable")],
               stageIndex := s.stageIndex + 1 }
    have hle' : s.stageIndex + 1
        ≤ (runStages p (stageRegistry.length - s.stageIndex - 1)
            { s with stageResults := s.stageResults ++ [(st.name, "unavailable")],
                     stageIndex := s.stageIndex + 1 }).2.1.stageIndex := hle
    have hns : s.status ≠ SessionStatus.failed := by
      rw [hs]
      decide
    have hge2 : 2 ≤ s.stageIndex := stageRegistry_auto_ge_two _ _ hreg hap
    refine ⟨?_, ?_, ?_⟩
    · rw [ht]
      simp
    · exact Nat.lt_of_lt_of_le (Nat.lt_succ_self _) hle'
    · exact runStages_auto_no_fail p _ _ hns
        (fun j st' hj hr =>
          stageRegistry_auto_from_two j st'
            (by
              have hj' : s.stageIndex + 1 ≤ j := hj
              omega) hr)

/-- Witness for claim C7: with a provider that always fails, the flight stage
(approval required) fails the session after two invocations, while the
restaurant stage (auto-select) records `unavailable`, advances, and the
session does not fail. -/
theorem c7_witness :
    (fetchWithRetry providerDown 0).2 = 2
    ∧ advance providerDown sessRunningFlight none =
        (EngineResponse.engineError EngineErrorKind.stageUnrecoverable
          "stage Flight failed after retry",
         { sessRunningFlight with status := SessionStatus.failed, turn := 1 }, 2)
    ∧ ("Restaurant", "unavailable")
        ∈ (advance providerDown sessRunningRestaurant none).2.1.stageResults
    ∧ 2 < (advance providerDown sessRunningRestaurant none).2.1.stageIndex
    ∧ (advance providerDown sessRunningRestaurant none).2.1.status ≠ SessionStatus.failed := by
  have h1 := c7_provider_retry_and_degrade providerDown sessRunningFlight
  have h2 := c7_provider_retry_and_degrade providerDown sessRunningRestaurant
  obtain ⟨hm, hlt, hnf⟩ :=
    h2.2.2.2 ⟨"Restaurant", "restaurant", false⟩ rfl rfl rfl rfl rfl
  exact ⟨h1.1 0 rfl,
    h1.2.2.1 ⟨"Flight", "flight", true⟩ rfl rfl rfl rfl rfl,
    hm, hlt, hnf⟩

/-- Witness for claim C4: a completed and a failed session both reject any
further call unchanged. -/
theorem c4_witness :
    advance providerDown sessComplete none =
      (EngineResponse.engineError EngineErrorKind.invalidState
        "session already complete or failed", sessComplete, 0)
    ∧ advance providerDown sessFailed (some (EngineDecision.refineSearch "cheaper")) =
      (EngineResponse.engineError EngineErrorKind.invalidState
        "session already complete or failed", sessFailed, 0) :=
  ⟨(c4_terminal_states_reject providerDown sessComplete none (Or.inl rfl)).1,
   (c4_terminal_states_reject providerDown sessFailed
      (some (EngineDecision.refineSearch "cheaper")) (Or.inr rfl)).1⟩

/-- Witness for claim C5: choosing an id outside the offered hotel candidates
returns the validation error and leaves the paused session untouched. -/
theorem c5_witness :
    advance providerDown sessPausedHotel (some (EngineDecision.finalChoice "H9")) =
      (EngineResponse.engineError EngineErrorKind.validationError
        "selected id is not among the pending candidates", sessPausedHotel, 0) :=
  c5_invalid_selection_rejected providerDown sessPausedHotel "H9" rfl (by decide)

end VacationPlanner
